import Mathlib

/-!
# Derived energy data of the model fitting (EnergyDerivedDataUpdate.h)

Shallow embedding of the class `fitModel::EnergyDerivedDataUpdate`.

* Scalars (`double`) are modelled as exact rationals, so every statement about
  arithmetic is a statement about exact arithmetic.
* `arma::vec` and `std::vector` are lists; every bounds-checked access
  (`std::vector::at`, the element access of `arma::vec`, `std::map::at`) is a
  fallible lookup.
* A member function is a function from the state (the three referenced
  aggregates) to an outcome `Run State`, which records whether the call
  returned or an exception escaped, and the state left behind in both cases.
* `int` indices are unbounded integers: meshes are assumed small enough that
  `3 * index + j` does not leave the range of `int`.
-/

set_option autoImplicit false

namespace FitModel

/-! ## Outcomes and loops -/

/-- Outcome of running code on a state of type `σ`: the code returned
normally (`done`) or an exception escaped (`thrown`); the carried value is the
state left behind. -/
inductive Run (σ : Type) where
  | done : σ → Run σ
  | thrown : σ → Run σ

namespace Run

variable {σ τ : Type}

/-- State left behind by a run, whether it returned or threw. -/
def state : Run σ → σ
  | done s => s
  | thrown s => s

/-- Sequencing: the next statement runs only if the previous one returned. -/
def andThen (r : Run σ) (f : σ → Run σ) : Run σ :=
  match r with
  | done s => f s
  | thrown s => thrown s

/-- Runs on a local reference are written back into the enclosing state. -/
def map (f : σ → τ) : Run σ → Run τ
  | done s => done (f s)
  | thrown s => thrown (f s)

end Run

/-- Counting loop `for(i = 0; i < n; ++i) body(i)`: the iterations
`0, ..., n - 1` run in this order and the first exception ends the loop. -/
def forLoop {σ : Type} : Nat → (Nat → σ → Run σ) → σ → Run σ
  | 0, _, s => Run.done s
  | n + 1, body, s => (forLoop n body s).andThen (body n)

/-- Range-based loop `for(const auto& x: xs) body(x)`. -/
def forEach {α σ : Type} : List α → (α → σ → Run σ) → σ → Run σ
  | [], _, s => Run.done s
  | x :: xs, body, s => (body x s).andThen (forEach xs body)

/-! ## Vectors -/

/-- Column vector of doubles, `arma::vec`. -/
abbrev Vec := List ℚ

/-- Vector of `n` zeros, `arma::vec(n, arma::fill::zeros)`. -/
def zeros (n : Nat) : Vec := List.replicate n 0

/-- Bounds-checked `std::vector::at` called with an `int`: the index is
converted to an unsigned size, so a negative index is out of range. -/
def vectorAt {α : Type} (xs : List α) (i : Int) : Option α :=
  if 0 ≤ i then xs[i.toNat]? else none

/-- Bounds-checked element write `buf(i) = x` of `arma::vec` with an `int`
index. -/
def assignAt (buf : Vec) (i : Int) (x : ℚ) : Option Vec :=
  if 0 ≤ i ∧ i.toNat < buf.length then some (buf.set i.toNat x) else none

/-- Bounds-checked `std::vector<bool>::at(i) = true` with an `int` index. -/
def markAt (flags : List Bool) (i : Int) : Option (List Bool) :=
  if 0 ≤ i ∧ i.toNat < flags.length then some (flags.set i.toNat true) else none

/-- Difference `a - b` of two `arma::vec`; sizes must agree. -/
def vecSub (a b : Vec) : Option Vec :=
  if a.length = b.length then some (List.zipWith (fun x y => x - y) a b) else none

/-- Sum `a + b` of two `arma::vec`; sizes must agree. -/
def vecAdd (a b : Vec) : Option Vec :=
  if a.length = b.length then some (List.zipWith (fun x y => x + y) a b) else none

/-- Inner product `arma::dot(a, b)`; sizes must agree. -/
def vecDot (a b : Vec) : Option ℚ :=
  if a.length = b.length then some ((List.zipWith (fun x y => x * y) a b).sum) else none

/-- Product `c * a` of a scalar and an `arma::vec`. -/
def vecScale (c : ℚ) (a : Vec) : Vec := a.map (fun x => c * x)

/-! ## Data model -/

/-- Modelled from the spec: the mesh class (Mesh.h is not part of the sources).
A mesh exposes its vertices, and its vertex normals, which are defined only if
`has_normals()` holds. -/
structure Mesh where
  vertices : List Vec
  vertexNormals : Option (List Vec)

/-- Accessor `Mesh::get_vertices`. -/
def Mesh.get_vertices (m : Mesh) : List Vec := m.vertices

/-- Accessor `Mesh::has_normals`. -/
def Mesh.has_normals (m : Mesh) : Bool := m.vertexNormals.isSome

/-- Mutator `Mesh::set_vertex_normals`. -/
def Mesh.set_vertex_normals (m : Mesh) (normals : List Vec) : Mesh :=
  { m with vertexNormals := some normals }

/-- Modelled from the spec: a landmark (Landmark.h is not part of the sources)
is a source vertex index paired with a fixed target position. -/
structure Landmark where
  sourceIndex : Int
  targetPosition : Vec

/-- Named weights, `std::map<std::string, double>`. -/
abbrev WeightMap := String → Option ℚ

/-- Assignment `weights[key] = value` of `std::map`. -/
def WeightMap.assign (m : WeightMap) (key : String) (value : ℚ) : WeightMap :=
  fun k => if k = key then some value else m k

/-- Modelled from the spec: the input data (EnergyData.h is not part of the
sources). `model` is the reconstruction collaborator
`model.reconstruct_mesh().for_weights(speakerWeights, phonemeWeights)`. -/
structure EnergyData where
  model : Vec → Vec → Mesh
  speakerWeights : Vec
  phonemeWeights : Vec
  target : Mesh
  landmarks : List Landmark

/-- Modelled from the spec: the settings (EnergySettings.h is not part of the
sources): named base weights and the projection flag. -/
structure EnergySettings where
  weights : WeightMap
  useProjection : Bool

/-- Modelled from the spec: the derived data (EnergyDerivedData.h is not part
of the sources), with the fields that EnergyDerivedDataUpdate reads or writes. -/
structure EnergyDerivedData where
  source : Mesh
  sourceIndices : List Int
  targetIndices : List Int
  linearizedSource : Vec
  linearizedTarget : Vec
  linearizedLandmarkSource : Vec
  linearizedLandmarkTarget : Vec
  isLandmark : List Bool
  weights : WeightMap

/-- The three aggregates referenced by an `EnergyDerivedDataUpdate` object. -/
structure State where
  energyData : EnergyData
  energyDerivedData : EnergyDerivedData
  energySettings : EnergySettings

/-! ## Private helpers of the class -/

/-- Statement `buffer(3 * index + j) = point(j);`, the body of the inner loop
of linearize_source, linearize_landmark_source and linearize_landmark_target. -/
def storeEntry (index : Int) (point : Vec) (j : Nat) (buf : Vec) : Run Vec :=
  match point[j]? with
  | none => Run.thrown buf
  | some x =>
    match assignAt buf (3 * index + (j : Int)) x with
    | none => Run.thrown buf
    | some written => Run.done written

/-- Inner loop `for(int j = 0; j < 3; ++j) buffer(3 * index + j) = point(j);`. -/
def storePoint (index : Int) (point : Vec) (buffer : Vec) : Run Vec :=
  forLoop 3 (storeEntry index point) buffer

/-- Body of the loop of `linearize_source` for the correspondence `i`. -/
def linearizeSourceStep (sourceVertices : List Vec) (sourceIndices : List Int)
    (i : Nat) (buf : Vec) : Run Vec :=
  match sourceIndices[i]? with
  | none => Run.thrown buf
  | some index =>
    match vectorAt sourceVertices index with
    | none => Run.thrown buf
    | some point => storePoint index point buf

/-- Loop of `linearize_source` over the correspondences, acting on the
reference `linearizedSource`. -/
def linearizeSourceLoop (sourceVertices : List Vec) (sourceIndices : List Int)
    (buffer : Vec) : Run Vec :=
  forLoop sourceIndices.length (linearizeSourceStep sourceVertices sourceIndices) buffer

/-- Member `linearize_source`: zero-fill `linearizedSource`, then copy the
source vertices named by the correspondences. -/
def linearize_source (s : State) : Run State :=
  let sourceVertices := s.energyDerivedData.source.get_vertices
  let sourceIndices := s.energyDerivedData.sourceIndices
  (linearizeSourceLoop sourceVertices sourceIndices
      (zeros (3 * sourceVertices.length))).map
    (fun buf => { s with energyDerivedData :=
      { s.energyDerivedData with linearizedSource := buf } })

/-- Projection `sourcePoint + arma::dot(targetPoint - sourcePoint, targetNormal)
* targetNormal`. -/
def projectOntoNormal (sourcePoint targetPoint targetNormal : Vec) : Option Vec :=
  match vecSub targetPoint sourcePoint with
  | none => none
  | some difference =>
    match vecDot difference targetNormal with
    | none => none
    | some d => vecAdd sourcePoint (vecScale d targetNormal)

/-- Target point of a correspondence: the target vertex, replaced by its
projection if the projection is switched on and the target has normals. -/
def correspondenceTarget (useProjection : Bool) (target : Mesh)
    (sourcePoint : Vec) (targetIndex : Int) : Option Vec :=
  match vectorAt target.get_vertices targetIndex with
  | none => none
  | some targetPoint =>
    if useProjection && target.has_normals then
      match target.vertexNormals with
      | none => none
      | some normals =>
        match vectorAt normals targetIndex with
        | none => none
        | some targetNormal => projectOntoNormal sourcePoint targetPoint targetNormal
    else some targetPoint

/-- Body of the inner loop of `linearize_source_and_target`: first the entry
of `linearizedSource`, then the entry of `linearizedTarget`. -/
def storeEntryPair (sourceIndex : Int) (sourcePoint targetPoint : Vec) (j : Nat)
    (bufs : Vec × Vec) : Run (Vec × Vec) :=
  match sourcePoint[j]? with
  | none => Run.thrown bufs
  | some x =>
    match assignAt bufs.1 (3 * sourceIndex + (j : Int)) x with
    | none => Run.thrown bufs
    | some ls =>
      match targetPoint[j]? with
      | none => Run.thrown (ls, bufs.2)
      | some y =>
        match assignAt bufs.2 (3 * sourceIndex + (j : Int)) y with
        | none => Run.thrown (ls, bufs.2)
        | some lt => Run.done (ls, lt)

/-- Inner loop `for(int j = 0; j < 3; ++j)` of `linearize_source_and_target`. -/
def storePointPair (sourceIndex : Int) (sourcePoint targetPoint : Vec)
    (buffers : Vec × Vec) : Run (Vec × Vec) :=
  forLoop 3 (storeEntryPair sourceIndex sourcePoint targetPoint) buffers

/-- Body of the loop of `linearize_source_and_target` for the correspondence
`i`. -/
def linearizeSourceAndTargetStep (useProjection : Bool) (target : Mesh)
    (sourceVertices : List Vec) (sourceIndices targetIndices : List Int)
    (i : Nat) (bufs : Vec × Vec) : Run (Vec × Vec) :=
  match sourceIndices[i]? with
  | none => Run.thrown bufs
  | some sourceIndex =>
    match targetIndices[i]? with
    | none => Run.thrown bufs
    | some targetIndex =>
      match vectorAt sourceVertices sourceIndex with
      | none => Run.thrown bufs
      | some sourcePoint =>
        match correspondenceTarget useProjection target sourcePoint targetIndex with
        | none => Run.thrown bufs
        | some targetPoint =>
          storePointPair sourceIndex sourcePoint targetPoint bufs

/-- Loop of `linearize_source_and_target` over the correspondences, acting on
the references `linearizedSource` and `linearizedTarget`. -/
def linearizeSourceAndTargetLoop (useProjection : Bool) (target : Mesh)
    (sourceVertices : List Vec) (sourceIndices targetIndices : List Int)
    (buffers : Vec × Vec) : Run (Vec × Vec) :=
  forLoop sourceIndices.length
    (linearizeSourceAndTargetStep useProjection target sourceVertices sourceIndices
      targetIndices) buffers

/-- Member `linearize_source_and_target`. -/
def linearize_source_and_target (s : State) : Run State :=
  let sourceVertices := s.energyDerivedData.source.get_vertices
  (linearizeSourceAndTargetLoop s.energySettings.useProjection s.energyData.target
      sourceVertices s.energyDerivedData.sourceIndices s.energyDerivedData.targetIndices
      (zeros (3 * sourceVertices.length), zeros (3 * sourceVertices.length))).map
    (fun bufs => { s with energyDerivedData :=
      { s.energyDerivedData with linearizedSource := bufs.1, linearizedTarget := bufs.2 } })

/-- Body of the loop of `setup_landmark_indicators`:
`isLandmark.at(landmark.sourceIndex) = true`. -/
def markLandmark (landmark : Landmark) (flags : List Bool) : Run (List Bool) :=
  match markAt flags landmark.sourceIndex with
  | none => Run.thrown flags
  | some marked => Run.done marked

/-- Member `setup_landmark_indicators`: clear, resize to the vertex count
(all false), then mark the source index of every landmark. -/
def setup_landmark_indicators (s : State) : Run State :=
  let vertexAmount := s.energyDerivedData.source.get_vertices.length
  (forEach s.energyData.landmarks markLandmark (List.replicate vertexAmount false)).map
    (fun flags => { s with energyDerivedData :=
      { s.energyDerivedData with isLandmark := flags } })

/-- Body of the loop of `linearize_landmark_source` for the landmark `i`. -/
def linearizeLandmarkSourceStep (sourceVertices : List Vec) (landmarks : List Landmark)
    (i : Nat) (buf : Vec) : Run Vec :=
  match landmarks[i]? with
  | none => Run.thrown buf
  | some landmark =>
    match vectorAt sourceVertices landmark.sourceIndex with
    | none => Run.thrown buf
    | some point => storePoint landmark.sourceIndex point buf

/-- Loop of `linearize_landmark_source` over the landmarks. -/
def linearizeLandmarkSourceLoop (sourceVertices : List Vec) (landmarks : List Landmark)
    (buffer : Vec) : Run Vec :=
  forLoop landmarks.length (linearizeLandmarkSourceStep sourceVertices landmarks) buffer

/-- Member `linearize_landmark_source`. -/
def linearize_landmark_source (s : State) : Run State :=
  let sourceVertices := s.energyDerivedData.source.get_vertices
  (linearizeLandmarkSourceLoop sourceVertices s.energyData.landmarks
      (zeros (3 * sourceVertices.length))).map
    (fun buf => { s with energyDerivedData :=
      { s.energyDerivedData with linearizedLandmarkSource := buf } })

/-- Body of the loop of `linearize_landmark_target` for the landmark `i`. -/
def linearizeLandmarkTargetStep (landmarks : List Landmark) (i : Nat) (buf : Vec) :
    Run Vec :=
  match landmarks[i]? with
  | none => Run.thrown buf
  | some landmark => storePoint landmark.sourceIndex landmark.targetPosition buf

/-- Loop of `linearize_landmark_target` over the landmarks. -/
def linearizeLandmarkTargetLoop (landmarks : List Landmark) (buffer : Vec) : Run Vec :=
  forLoop landmarks.length (linearizeLandmarkTargetStep landmarks) buffer

/-- Member `linearize_landmark_target`. -/
def linearize_landmark_target (s : State) : Run State :=
  let sourceVertices := s.energyDerivedData.source.get_vertices
  (linearizeLandmarkTargetLoop s.energyData.landmarks
      (zeros (3 * sourceVertices.length))).map
    (fun buf => { s with energyDerivedData :=
      { s.energyDerivedData with linearizedLandmarkTarget := buf } })

/-! ## Public update operations -/

/-- Divisor of a term weight: `(size == 0) ? 1. : size`. -/
def countOrOne (size : Nat) : ℚ := if size = 0 then 1 else (size : ℚ)

/-- Member `source_normals`; `estimate` is the normal estimation collaborator
(`NormalEstimation::compute`, not part of the sources). -/
def source_normals (estimate : Mesh → List Vec) (s : State) : Run State :=
  Run.done { s with energyDerivedData :=
    { s.energyDerivedData with
      source := s.energyDerivedData.source.set_vertex_normals
        (estimate s.energyDerivedData.source) } }

/-- Member `for_weights`. -/
def for_weights (s : State) : Run State :=
  let rebuilt : State := { s with energyDerivedData :=
    { s.energyDerivedData with
      source := s.energyData.model s.energyData.speakerWeights s.energyData.phonemeWeights } }
  (linearize_source rebuilt).andThen linearize_landmark_source

/-- The statements of `for_neighbors` that update the data term weight. -/
def updateDataTermWeight (s : State) : Run State :=
  match s.energySettings.weights "dataTerm" with
  | none => Run.thrown s
  | some weight =>
    Run.done { s with energyDerivedData :=
      { s.energyDerivedData with
        weights := s.energyDerivedData.weights.assign "dataTerm"
          (weight / countOrOne s.energyDerivedData.sourceIndices.length) } }

/-- Member `for_neighbors`. -/
def for_neighbors (s : State) : Run State :=
  (linearize_source_and_target s).andThen updateDataTermWeight

/-- The statements of `for_landmarks` that update the landmark term weight. -/
def updateLandmarkTermWeight (s : State) : Run State :=
  match s.energySettings.weights "landmarkTerm" with
  | none => Run.thrown s
  | some weight =>
    Run.done { s with energyDerivedData :=
      { s.energyDerivedData with
        weights := s.energyDerivedData.weights.assign "landmarkTerm"
          (weight / countOrOne s.energyData.landmarks.length) } }

/-- Member `for_landmarks`. -/
def for_landmarks (s : State) : Run State :=
  (((setup_landmark_indicators s).andThen linearize_landmark_source).andThen
      linearize_landmark_target).andThen updateLandmarkTermWeight

/-! ## Contracts and concrete states -/

/-- Target mesh of the scenario of the testable properties: four vertices, no
normals. -/
def scenarioTarget : Mesh :=
  { vertices := [[1, 0, 0], [0, 1, 0], [0, 0, 1], [1, 1, 1]], vertexNormals := none }

/-- A source mesh with four vertices. -/
def scenarioSource : Mesh :=
  { vertices := [[10, 11, 12], [13, 14, 15], [16, 17, 18], [19, 20, 21]],
    vertexNormals := none }

/-- Scenario state: N = 4, sourceIndices = [1, 3], targetIndices = [0, 2], no
projection, base weight 3 for the data term, and stale buffers of wrong
length. -/
def scenarioState : State where
  energyData := {
    model := fun _ _ => scenarioSource
    speakerWeights := []
    phonemeWeights := []
    target := scenarioTarget
    landmarks := [] }
  energyDerivedData := {
    source := scenarioSource
    sourceIndices := [1, 3]
    targetIndices := [0, 2]
    linearizedSource := [5, 5, 5, 5, 5, 5, 5, 5, 5, 5, 5, 5, 5]
    linearizedTarget := [7]
    linearizedLandmarkSource := []
    linearizedLandmarkTarget := []
    isLandmark := []
    weights := fun _ => none }
  energySettings := {
    weights := fun k => if k = "dataTerm" then some 3 else none
    useProjection := false }

/-- State with the correspondences [(0, A), (0, B)] for the target points
A = (1, 2, 3) and B = (4, 5, 6), without projection. -/
def duplicateState : State where
  energyData := {
    model := fun _ _ => scenarioSource
    speakerWeights := []
    phonemeWeights := []
    target := { vertices := [[1, 2, 3], [4, 5, 6]], vertexNormals := none }
    landmarks := [] }
  energyDerivedData := {
    source := scenarioSource
    sourceIndices := [0, 0]
    targetIndices := [0, 1]
    linearizedSource := []
    linearizedTarget := []
    linearizedLandmarkSource := []
    linearizedLandmarkTarget := []
    isLandmark := []
    weights := fun _ => none }
  energySettings := {
    weights := fun k => if k = "dataTerm" then some 1 else none
    useProjection := false }

/-- State with one correspondence, source point S = (1, 1, 1) at vertex 1,
target point T = (2, 3, 5) with unit normal n = (3/5, 4/5, 0), projection on. -/
def projectionState : State where
  energyData := {
    model := fun _ _ => scenarioSource
    speakerWeights := []
    phonemeWeights := []
    target := {
      vertices := [[0, 0, 0], [2, 3, 5]]
      vertexNormals := some [[1, 0, 0], [3 / 5, 4 / 5, 0]] }
    landmarks := [] }
  energyDerivedData := {
    source := { vertices := [[9, 9, 9], [1, 1, 1]], vertexNormals := none }
    sourceIndices := [1]
    targetIndices := [1]
    linearizedSource := []
    linearizedTarget := []
    linearizedLandmarkSource := []
    linearizedLandmarkTarget := []
    isLandmark := []
    weights := fun _ => none }
  energySettings := {
    weights := fun k => if k = "dataTerm" then some 1 else none
    useProjection := true }

/-- State with eight source vertices and landmarks at the source indices 2, 7
and 2 again, stale landmark fields, and the projection flag set. -/
def landmarkState : State where
  energyData := {
    model := fun _ _ => scenarioSource
    speakerWeights := []
    phonemeWeights := []
    target := scenarioTarget
    landmarks := [
      { sourceIndex := 2, targetPosition := [1, 2, 3] },
      { sourceIndex := 7, targetPosition := [4, 5, 6] },
      { sourceIndex := 2, targetPosition := [7, 8, 9] }] }
  energyDerivedData := {
    source := {
      vertices := [[10, 11, 12], [13, 14, 15], [16, 17, 18], [19, 20, 21],
        [22, 23, 24], [25, 26, 27], [28, 29, 30], [31, 32, 33]]
      vertexNormals := none }
    sourceIndices := []
    targetIndices := []
    linearizedSource := []
    linearizedTarget := []
    linearizedLandmarkSource := [5, 5]
    linearizedLandmarkTarget := [7]
    isLandmark := [true, true, true]
    weights := fun _ => none }
  energySettings := {
    weights := fun k => if k = "landmarkTerm" then some 6 else none
    useProjection := true }

/-- Scenario state with another target mesh (with normals), other target
indices and the projection switched on; source mesh and source indices are
those of the scenario state. -/
def scenarioProjectedState : State where
  energyData := {
    model := fun _ _ => scenarioSource
    speakerWeights := []
    phonemeWeights := []
    target := {
      vertices := [[2, 3, 5], [7, 7, 7]]
      vertexNormals := some [[1, 0, 0], [0, 1, 0]] }
    landmarks := [] }
  energyDerivedData := {
    source := scenarioSource
    sourceIndices := [1, 3]
    targetIndices := [1, 0, 5]
    linearizedSource := []
    linearizedTarget := []
    linearizedLandmarkSource := []
    linearizedLandmarkTarget := []
    isLandmark := []
    weights := fun _ => none }
  energySettings := {
    weights := fun _ => none
    useProjection := true }

/-- State on which every refresh returns: the landmark state with three
correspondences, base weights for both terms and a further named weight that
the derived weights do not hold. -/
def fullState : State where
  energyData := {
    model := fun _ _ => landmarkState.energyDerivedData.source
    speakerWeights := []
    phonemeWeights := []
    target := scenarioTarget
    landmarks := landmarkState.energyData.landmarks }
  energyDerivedData := {
    source := landmarkState.energyDerivedData.source
    sourceIndices := [1, 3, 1]
    targetIndices := [0, 2, 3]
    linearizedSource := [5]
    linearizedTarget := []
    linearizedLandmarkSource := [5, 5]
    linearizedLandmarkTarget := [7]
    isLandmark := [true]
    weights := fun _ => none }
  energySettings := {
    weights := fun k =>
      if k = "dataTerm" then some 3
      else if k = "landmarkTerm" then some 6
      else if k = "smoothnessTerm" then some 2
      else none
    useProjection := false }

/-- Scenario state with a surplus target index: sourceIndices = [1, 3],
targetIndices = [0, 2, 9]. -/
def surplusState : State :=
  { scenarioState with energyDerivedData :=
    { scenarioState.energyDerivedData with targetIndices := [0, 2, 9] } }

/-- Scenario state with a missing target index: sourceIndices = [1, 3],
targetIndices = [0]. -/
def shortageState : State :=
  { scenarioState with energyDerivedData :=
    { scenarioState.energyDerivedData with targetIndices := [0] } }

/-- Scenario state whose second correspondence names the source vertex 9, which
the four-vertex source mesh does not have. -/
def outOfRangeState : State :=
  { scenarioState with energyDerivedData :=
    { scenarioState.energyDerivedData with sourceIndices := [1, 9] } }

/-- Landmark state with a further landmark at the source index 8, which the
eight-vertex source mesh does not have. -/
def outOfRangeLandmarkState : State :=
  { landmarkState with energyData :=
    { landmarkState.energyData with
      landmarks := landmarkState.energyData.landmarks ++
        [{ sourceIndex := 8, targetPosition := [1, 1, 1] }] } }

/-- The buffer-length invariant of the derived data: each of the four dense
buffers has three entries per vertex of the source mesh. -/
def bufferLengthsOk (d : EnergyDerivedData) : Prop :=
  d.linearizedSource.length = 3 * d.source.vertices.length ∧
  d.linearizedTarget.length = 3 * d.source.vertices.length ∧
  d.linearizedLandmarkSource.length = 3 * d.source.vertices.length ∧
  d.linearizedLandmarkTarget.length = 3 * d.source.vertices.length

/-- State before the first refresh: the derived source mesh is still empty and
so are all buffers; the model reconstructs the four-vertex source mesh. -/
def freshState : State where
  energyData := {
    model := fun _ _ => scenarioSource
    speakerWeights := [1]
    phonemeWeights := [1]
    target := scenarioTarget
    landmarks := [] }
  energyDerivedData := {
    source := { vertices := [], vertexNormals := none }
    sourceIndices := []
    targetIndices := []
    linearizedSource := []
    linearizedTarget := []
    linearizedLandmarkSource := []
    linearizedLandmarkTarget := []
    isLandmark := []
    weights := fun _ => none }
  energySettings := {
    weights := fun _ => none
    useProjection := false }

/-- State reached from the full state by a returning for_neighbors and a
returning for_landmarks: all four buffers have 24 entries for eight vertices. -/
def settledState : State :=
  (for_landmarks (for_neighbors fullState).state).state

/-- The contract of the sparse-to-dense linearizer: `buf` is the zero-filled
linearization of `vertices` at the active indices `active` if it has three
entries per vertex, holds the coordinates of every vertex named in `active` at
the offset three times its index, and is zero at every other vertex. -/
def IsLinearization (vertices : List Vec) (active : List Int) (buf : Vec) : Prop :=
  buf.length = 3 * vertices.length ∧
  ∀ v, v < vertices.length → ∀ j, j < 3 →
    ((v : Int) ∈ active →
      ∃ p x, vertices[v]? = some p ∧ p[j]? = some x ∧ buf[3 * v + j]? = some x) ∧
    ((v : Int) ∉ active → buf[3 * v + j]? = some 0)

/-- Scenario state with the source indices of the scenario in another order
and with repetitions: sourceIndices = [3, 1, 3, 3]. -/
def reorderedState : State :=
  { scenarioState with energyDerivedData :=
    { scenarioState.energyDerivedData with sourceIndices := [3, 1, 3, 3] } }

/-- State before a parameter change takes effect: the derived source mesh and
its buffers are stale, the model reconstructs the eight-vertex mesh of the
landmark state; correspondences and landmarks are those of the full state. -/
def staleState : State :=
  { fullState with energyDerivedData :=
    { fullState.energyDerivedData with source := scenarioSource } }

/-! ## Outcomes, loops and buffers: basic facts -/

theorem Run.andThen_done {σ : Type} (r : Run σ) (f : σ → Run σ) (s' : σ) :
    r.andThen f = Run.done s' ↔ ∃ s1, r = Run.done s1 ∧ f s1 = Run.done s' := by
  cases r <;> simp [Run.andThen]

theorem Run.map_done {σ τ : Type} (f : σ → τ) (r : Run σ) (t : τ) :
    r.map f = Run.done t ↔ ∃ s1, r = Run.done s1 ∧ f s1 = t := by
  cases r <;> simp [Run.map]

theorem forLoop_succ_done {σ : Type} (n : Nat) (body : Nat → σ → Run σ) (s s' : σ) :
    forLoop (n + 1) body s = Run.done s' ↔
      ∃ s1, forLoop n body s = Run.done s1 ∧ body n s1 = Run.done s' := by
  simp [forLoop, Run.andThen_done]

theorem forLoop_three {σ : Type} (body : Nat → σ → Run σ) (s s' : σ) :
    forLoop 3 body s = Run.done s' ↔
      ∃ s1 s2, body 0 s = Run.done s1 ∧ body 1 s1 = Run.done s2 ∧ body 2 s2 = Run.done s' := by
  simp only [forLoop, Run.andThen_done]
  constructor
  · rintro ⟨s2, ⟨s1, ⟨s0, h0, h1⟩, h2⟩, h3⟩
    cases h0
    exact ⟨s1, s2, h1, h2, h3⟩
  · rintro ⟨s1, s2, h1, h2, h3⟩
    exact ⟨s2, ⟨s1, ⟨s, rfl, h1⟩, h2⟩, h3⟩

theorem forLoop_project {σ τ : Type} (π : σ → τ) (body : Nat → σ → Run σ)
    (bodyA : Nat → τ → Run τ)
    (h : ∀ i s s', body i s = Run.done s' → bodyA i (π s) = Run.done (π s')) :
    ∀ n s s', forLoop n body s = Run.done s' → forLoop n bodyA (π s) = Run.done (π s') := by
  intro n
  induction n with
  | zero =>
    intro s s' hs
    simp only [forLoop, Run.done.injEq] at hs ⊢
    rw [hs]
  | succ n ih =>
    intro s s' hs
    rw [forLoop_succ_done] at hs ⊢
    obtain ⟨s1, h1, h2⟩ := hs
    exact ⟨π s1, ih s s1 h1, h n s1 s' h2⟩

theorem assignAt_some (buf : Vec) (i : Int) (x : ℚ) (b : Vec) :
    assignAt buf i x = some b ↔ 0 ≤ i ∧ i.toNat < buf.length ∧ b = buf.set i.toNat x := by
  unfold assignAt
  split
  · rename_i h
    simp [h.1, h.2, eq_comm]
  · rename_i h
    simp only [false_iff, reduceCtorEq]
    intro h1
    exact h ⟨h1.1, h1.2.1⟩

theorem storeEntry_done (index : Int) (point : Vec) (j : Nat) (b b' : Vec) :
    storeEntry index point j b = Run.done b' ↔
      ∃ x, point[j]? = some x ∧ 0 ≤ 3 * index + (j : Int) ∧
        (3 * index + (j : Int)).toNat < b.length ∧
        b' = b.set (3 * index + (j : Int)).toNat x := by
  unfold storeEntry
  cases hp : point[j]? with
  | none => simp
  | some x =>
    simp only [Option.some.injEq, exists_eq_left']
    cases ha : assignAt b (3 * index + (j : Int)) x with
    | none =>
      simp only [reduceCtorEq, false_iff]
      intro hh
      have := (assignAt_some b _ x _).mpr ⟨hh.1, hh.2.1, rfl⟩
      rw [ha] at this
      exact absurd this (by simp)
    | some w =>
      have := (assignAt_some b _ x w).mp ha
      simp only [Run.done.injEq]
      constructor
      · intro h
        subst h
        exact this
      · intro h
        rw [h.2.2, this.2.2]

theorem storePoint_done (index : Int) (point buf buf' : Vec) :
    storePoint index point buf = Run.done buf' ↔
      ∃ (k : Nat) (x y z : ℚ), index = (k : Int) ∧ point[0]? = some x ∧ point[1]? = some y ∧
        point[2]? = some z ∧ 3 * k + 2 < buf.length ∧
        buf' = ((buf.set (3 * k) x).set (3 * k + 1) y).set (3 * k + 2) z := by
  unfold storePoint
  rw [forLoop_three]
  simp only [storeEntry_done]
  constructor
  · rintro ⟨b1, b2, ⟨x, hx, h0, hl0, rfl⟩, ⟨y, hy, h1, hl1, rfl⟩, ⟨z, hz, h2, hl2, rfl⟩⟩
    have hidx : 0 ≤ index := by omega
    refine ⟨index.toNat, x, y, z, by omega, hx, hy, hz, ?_, ?_⟩
    · simp only [List.length_set] at hl2
      omega
    · have e0 : (3 * index + ((0 : Nat) : Int)).toNat = 3 * index.toNat := by omega
      have e1 : (3 * index + ((1 : Nat) : Int)).toNat = 3 * index.toNat + 1 := by omega
      have e2 : (3 * index + ((2 : Nat) : Int)).toNat = 3 * index.toNat + 2 := by omega
      rw [e0, e1, e2]
  · rintro ⟨k, x, y, z, rfl, hx, hy, hz, hl, rfl⟩
    have e0 : (3 * (k : Int) + ((0 : Nat) : Int)).toNat = 3 * k := by omega
    have e1 : (3 * (k : Int) + ((1 : Nat) : Int)).toNat = 3 * k + 1 := by omega
    have e2 : (3 * (k : Int) + ((2 : Nat) : Int)).toNat = 3 * k + 2 := by omega
    refine ⟨_, _, ⟨x, hx, by omega, ?_, rfl⟩, ⟨y, hy, by omega, ?_, rfl⟩, ⟨z, hz, by omega, ?_, ?_⟩⟩
    · omega
    · simp only [List.length_set]; omega
    · simp only [List.length_set]; omega
    · rw [e0, e1, e2]

/-- Entries of a buffer after one point has been stored. -/
theorem storePoint_entries (index : Int) (point buf buf' : Vec)
    (h : storePoint index point buf = Run.done buf') :
    buf'.length = buf.length ∧
    ∃ k : Nat, index = (k : Int) ∧ 3 * k + 2 < buf.length ∧
      (∀ j, j < 3 → ∃ x, point[j]? = some x ∧ buf'[3 * k + j]? = some x) ∧
      (∀ v j, j < 3 → v ≠ k → buf'[3 * v + j]? = buf[3 * v + j]?) := by
  obtain ⟨k, x, y, z, hk, hx, hy, hz, hl, rfl⟩ := (storePoint_done index point buf buf').mp h
  refine ⟨by simp, k, hk, hl, ?_, ?_⟩
  · intro j hj
    interval_cases j
    · refine ⟨x, hx, ?_⟩
      simp [List.getElem?_set]
      omega
    · refine ⟨y, hy, ?_⟩
      simp [List.getElem?_set]
      omega
    · refine ⟨z, hz, ?_⟩
      simp [List.getElem?_set]
      omega
  · intro v j hj hv
    have h0 : 3 * k ≠ 3 * v + j := by omega
    have h1 : 3 * k + 1 ≠ 3 * v + j := by omega
    have h2 : 3 * k + 2 ≠ 3 * v + j := by omega
    simp [List.getElem?_set, h0, h1, h2]

theorem zeros_length (n : Nat) : (zeros n).length = n := by
  simp [zeros]

theorem zeros_getElem? (n i : Nat) (h : i < n) : (zeros n)[i]? = some 0 := by
  simp [zeros, List.getElem?_replicate, h]

/-- Invariant of a loop that stores, in iteration `i`, the point `point i` at
the vertex `index i` of a buffer that starts as `3 * N` zeros. -/
theorem scatter_loop {σ : Type} (π : σ → Vec) (N : Nat) (index : Nat → Option Int)
    (point : Nat → Option Vec) (body : Nat → σ → Run σ)
    (hbody : ∀ i s s', body i s = Run.done s' →
      ∃ k p, index i = some k ∧ point i = some p ∧
        storePoint k p (π s) = Run.done (π s')) :
    ∀ n s0 s', π s0 = zeros (3 * N) → forLoop n body s0 = Run.done s' →
      (π s').length = 3 * N ∧
      (∀ i, i < n → ∃ k : Nat, index i = some (k : Int) ∧ k < N) ∧
      (∀ v, v < N → ∀ j, j < 3 →
        ((∀ i, i < n → index i ≠ some (v : Int)) → (π s')[3 * v + j]? = some 0) ∧
        (∀ i, i < n → index i = some (v : Int) →
          (∀ i', i < i' → i' < n → index i' ≠ some (v : Int)) →
          ∃ p x, point i = some p ∧ p[j]? = some x ∧ (π s')[3 * v + j]? = some x)) := by
  intro n
  induction n with
  | zero =>
    intro s0 s' h0 hs
    simp only [forLoop, Run.done.injEq] at hs
    subst hs
    rw [h0]
    refine ⟨zeros_length _, ?_, ?_⟩
    · intro i hi
      omega
    · intro v hv j hj
      refine ⟨fun _ => zeros_getElem? _ _ (by omega), ?_⟩
      intro i hi
      omega
  | succ n ih =>
    intro s0 s' h0 hs
    rw [forLoop_succ_done] at hs
    obtain ⟨s1, h1, h2⟩ := hs
    obtain ⟨hlen, hrange, hent⟩ := ih s0 s1 h0 h1
    obtain ⟨k, p, hk, hp, hstore⟩ := hbody n s1 s' h2
    obtain ⟨hlen', k', hkk, hbound, hnew, hold⟩ := storePoint_entries k p _ _ hstore
    subst hkk
    have hkN : k' < N := by omega
    refine ⟨by omega, ?_, ?_⟩
    · intro i hi
      by_cases hin : i = n
      · subst hin
        exact ⟨k', hk, hkN⟩
      · exact hrange i (by omega)
    · intro v hv j hj
      constructor
      · intro hno
        have hvk : v ≠ k' := by
          intro e
          subst e
          exact hno n (by omega) hk
        rw [hold v j hj hvk]
        exact (hent v hv j hj).1 (fun i hi => hno i (by omega))
      · intro i hi hiv hlast
        by_cases hin : i = n
        · subst hin
          have hvk : v = k' := by
            rw [hk] at hiv
            simp only [Option.some.injEq, Nat.cast_inj] at hiv
            exact hiv.symm
          subst hvk
          obtain ⟨x, hx, hbx⟩ := hnew j hj
          exact ⟨p, x, hp, hx, hbx⟩
        · have hvk : v ≠ k' := by
            intro e
            subst e
            exact hlast n (by omega) (by omega) hk
          rw [hold v j hj hvk]
          exact (hent v hv j hj).2 i (by omega) hiv (fun i' h1 h2 => hlast i' h1 (by omega))

/-! ## The loop bodies -/

theorem linearizeSourceStep_done (sourceVertices : List Vec) (sourceIndices : List Int)
    (i : Nat) (buf buf' : Vec) :
    linearizeSourceStep sourceVertices sourceIndices i buf = Run.done buf' ↔
      ∃ k p, sourceIndices[i]? = some k ∧ vectorAt sourceVertices k = some p ∧
        storePoint k p buf = Run.done buf' := by
  unfold linearizeSourceStep
  cases hc1 : sourceIndices[i]? with
  | none => simp [*]
  | some k =>
    simp only [Option.some.injEq, exists_eq_left']
    cases hc2 : vectorAt sourceVertices k with
    | none => simp [*]
    | some p => simp [*]

theorem linearizeSourceAndTargetStep_done (useProjection : Bool) (target : Mesh)
    (sourceVertices : List Vec) (sourceIndices targetIndices : List Int)
    (i : Nat) (bufs bufs' : Vec × Vec) :
    linearizeSourceAndTargetStep useProjection target sourceVertices sourceIndices
        targetIndices i bufs = Run.done bufs' ↔
      ∃ k t sp tp, sourceIndices[i]? = some k ∧ targetIndices[i]? = some t ∧
        vectorAt sourceVertices k = some sp ∧
        correspondenceTarget useProjection target sp t = some tp ∧
        storePointPair k sp tp bufs = Run.done bufs' := by
  unfold linearizeSourceAndTargetStep
  cases hc3 : sourceIndices[i]? with
  | none => simp [*]
  | some k =>
    simp only [Option.some.injEq, exists_eq_left']
    cases hc4 : targetIndices[i]? with
    | none => simp [*]
    | some t =>
      simp only [Option.some.injEq, exists_eq_left']
      cases hc5 : vectorAt sourceVertices k with
      | none => simp [*]
      | some sp =>
        simp only [Option.some.injEq, exists_eq_left']
        cases hc6 : correspondenceTarget useProjection target sp t with
        | none => simp [*]
        | some tp => simp [*]

theorem storeEntryPair_done (k : Int) (sp tp : Vec) (j : Nat) (bufs bufs' : Vec × Vec) :
    storeEntryPair k sp tp j bufs = Run.done bufs' ↔
      storeEntry k sp j bufs.1 = Run.done bufs'.1 ∧
      storeEntry k tp j bufs.2 = Run.done bufs'.2 := by
  obtain ⟨b1, b2⟩ := bufs
  obtain ⟨c1, c2⟩ := bufs'
  unfold storeEntryPair storeEntry
  cases hc7 : sp[j]? with
  | none => simp [*]
  | some x =>
    simp only [Option.some.injEq, exists_eq_left']
    cases assignAt b1 (3 * k + (j : Int)) x with
    | none => simp [*]
    | some ls =>
      simp only [Option.some.injEq, exists_eq_left']
      cases hc8 : tp[j]? with
      | none => simp [*]
      | some y =>
        simp only [Option.some.injEq, exists_eq_left']
        cases assignAt b2 (3 * k + (j : Int)) y with
        | none => simp [*]
        | some lt => simp [*]

theorem storePointPair_done (k : Int) (sp tp : Vec) (bufs bufs' : Vec × Vec)
    (h : storePointPair k sp tp bufs = Run.done bufs') :
    storePoint k sp bufs.1 = Run.done bufs'.1 ∧ storePoint k tp bufs.2 = Run.done bufs'.2 := by
  unfold storePointPair at h
  unfold storePoint
  constructor
  · exact forLoop_project Prod.fst _ _
      (fun j s s' hs => ((storeEntryPair_done k sp tp j s s').mp hs).1) 3 _ _ h
  · exact forLoop_project Prod.snd _ _
      (fun j s s' hs => ((storeEntryPair_done k sp tp j s s').mp hs).2) 3 _ _ h

theorem vectorAt_natCast {α : Type} (xs : List α) (v : Nat) :
    vectorAt xs (v : Int) = xs[v]? := by
  simp [vectorAt]

theorem exists_last_occurrence {α : Type} (a : α) :
    ∀ l : List α, a ∈ l →
      ∃ i, i < l.length ∧ l[i]? = some a ∧
        ∀ i', i < i' → i' < l.length → l[i']? ≠ some a := by
  intro l
  induction l with
  | nil => intro h; simp at h
  | cons x xs ih =>
    intro h
    by_cases hmem : a ∈ xs
    · obtain ⟨i, hi, hget, hlast⟩ := ih hmem
      refine ⟨i + 1, by simp; omega, by simpa using hget, ?_⟩
      intro i' h1 h2
      obtain ⟨m, rfl⟩ : ∃ m, i' = m + 1 := ⟨i' - 1, by omega⟩
      simp only [List.length_cons] at h2
      simpa using hlast m (by omega) (by omega)
    · have hax : a = x := by
        rcases List.mem_cons.mp h with h1 | h1
        · exact h1
        · exact absurd h1 hmem
      subst hax
      refine ⟨0, by simp, by simp, ?_⟩
      intro i' h1 h2
      obtain ⟨m, rfl⟩ : ∃ m, i' = m + 1 := ⟨i' - 1, by omega⟩
      intro hget
      apply hmem
      rw [List.mem_iff_getElem?]
      exact ⟨m, by simpa using hget⟩

theorem not_mem_iff_getElem? {α : Type} (a : α) (l : List α) :
    a ∉ l ↔ ∀ i, i < l.length → l[i]? ≠ some a := by
  rw [List.mem_iff_getElem?]
  constructor
  · intro h i _ hi
    exact h ⟨i, hi⟩
  · rintro h ⟨i, hi⟩
    have hlt : i < l.length := by
      by_contra hge
      rw [List.getElem?_eq_none (by omega)] at hi
      simp at hi
    exact h i hlt hi

/-! ## Refresh for a change of the correspondences -/

/-- Buffers after the loop of `linearize_source_and_target` has returned. -/
theorem linearizeSourceAndTargetLoop_done (useProjection : Bool) (target : Mesh)
    (sourceVertices : List Vec) (sourceIndices targetIndices : List Int)
    (bufs : Vec × Vec)
    (h : linearizeSourceAndTargetLoop useProjection target sourceVertices sourceIndices
      targetIndices (zeros (3 * sourceVertices.length), zeros (3 * sourceVertices.length))
        = Run.done bufs) :
    bufs.1.length = 3 * sourceVertices.length ∧
    bufs.2.length = 3 * sourceVertices.length ∧
    (∀ i, i < sourceIndices.length →
      ∃ k : Nat, sourceIndices[i]? = some (k : Int) ∧ k < sourceVertices.length) ∧
    ∀ v, v < sourceVertices.length → ∀ j, j < 3 →
      (((v : Int) ∉ sourceIndices) →
        bufs.1[3 * v + j]? = some 0 ∧ bufs.2[3 * v + j]? = some 0) ∧
      (∀ i, i < sourceIndices.length → sourceIndices[i]? = some (v : Int) →
        (∀ i', i < i' → i' < sourceIndices.length → sourceIndices[i']? ≠ some (v : Int)) →
        ∃ sp t tp x y, sourceVertices[v]? = some sp ∧ targetIndices[i]? = some t ∧
          correspondenceTarget useProjection target sp t = some tp ∧
          sp[j]? = some x ∧ tp[j]? = some y ∧
          bufs.1[3 * v + j]? = some x ∧ bufs.2[3 * v + j]? = some y) := by
  unfold linearizeSourceAndTargetLoop at h
  have hS := scatter_loop Prod.fst sourceVertices.length (fun i => sourceIndices[i]?)
    (fun i => (sourceIndices[i]?).bind (vectorAt sourceVertices))
    (linearizeSourceAndTargetStep useProjection target sourceVertices sourceIndices
      targetIndices)
    (by
      intro i s s' hs
      obtain ⟨k, t, sp, tp, h1, h2, h3, h4, h5⟩ :=
        (linearizeSourceAndTargetStep_done _ _ _ _ _ i s s').mp hs
      exact ⟨k, sp, h1, by simp [h1, h3], (storePointPair_done k sp tp s s' h5).1⟩)
    sourceIndices.length _ bufs rfl h
  have hT := scatter_loop Prod.snd sourceVertices.length (fun i => sourceIndices[i]?)
    (fun i => (sourceIndices[i]?).bind (fun k => (targetIndices[i]?).bind (fun t =>
      (vectorAt sourceVertices k).bind (fun sp =>
        correspondenceTarget useProjection target sp t))))
    (linearizeSourceAndTargetStep useProjection target sourceVertices sourceIndices
      targetIndices)
    (by
      intro i s s' hs
      obtain ⟨k, t, sp, tp, h1, h2, h3, h4, h5⟩ :=
        (linearizeSourceAndTargetStep_done _ _ _ _ _ i s s').mp hs
      exact ⟨k, tp, h1, by simp [h1, h2, h3, h4], (storePointPair_done k sp tp s s' h5).2⟩)
    sourceIndices.length _ bufs rfl h
  obtain ⟨hS1, hS2, hS3⟩ := hS
  obtain ⟨hT1, _, hT3⟩ := hT
  refine ⟨hS1, hT1, hS2, ?_⟩
  intro v hv j hj
  constructor
  · intro hno
    have hno' := (not_mem_iff_getElem? _ _).mp hno
    exact ⟨(hS3 v hv j hj).1 hno', (hT3 v hv j hj).1 hno'⟩
  · intro i hi hiv hlast
    obtain ⟨p, x, hp, hx, hbx⟩ := (hS3 v hv j hj).2 i hi hiv hlast
    obtain ⟨q, y, hq, hy, hby⟩ := (hT3 v hv j hj).2 i hi hiv hlast
    simp only [hiv, Option.some_bind, vectorAt_natCast] at hp hq
    rw [hp] at hq
    simp only [Option.some_bind] at hq
    cases ht : targetIndices[i]? with
    | none => simp [ht] at hq
    | some t =>
      simp only [ht, Option.some_bind] at hq
      exact ⟨p, t, q, x, y, hp, rfl, hq, hx, hy, hbx, hby⟩

theorem for_neighbors_done (s s' : State) :
    for_neighbors s = Run.done s' ↔
      ∃ bufs w,
        linearizeSourceAndTargetLoop s.energySettings.useProjection s.energyData.target
          s.energyDerivedData.source.vertices s.energyDerivedData.sourceIndices
          s.energyDerivedData.targetIndices
          (zeros (3 * s.energyDerivedData.source.vertices.length),
            zeros (3 * s.energyDerivedData.source.vertices.length)) = Run.done bufs ∧
        s.energySettings.weights "dataTerm" = some w ∧
        s' = { s with energyDerivedData :=
          { s.energyDerivedData with
            linearizedSource := bufs.1
            linearizedTarget := bufs.2
            weights := s.energyDerivedData.weights.assign "dataTerm"
              (w / countOrOne s.energyDerivedData.sourceIndices.length) } } := by
  unfold for_neighbors linearize_source_and_target
  simp only [Run.andThen_done, Run.map_done, Mesh.get_vertices]
  constructor
  · rintro ⟨s1, ⟨bufs, hb, rfl⟩, hw⟩
    unfold updateDataTermWeight at hw
    cases hk : s.energySettings.weights "dataTerm" with
    | none => simp [hk] at hw
    | some w =>
      simp only [hk, Run.done.injEq] at hw
      exact ⟨bufs, w, hb, rfl, hw.symm⟩
  · rintro ⟨bufs, w, hb, hw, rfl⟩
    refine ⟨_, ⟨bufs, hb, rfl⟩, ?_⟩
    unfold updateDataTermWeight
    simp [hw]

/-- C1: after a successful for_neighbors the buffer linearizedSource has length
3 * N and, for every vertex v < N and j < 3, entry 3 * v + j is coordinate j of
source vertex v if v occurs in sourceIndices and 0 otherwise, whatever the
buffer held before the call. -/
theorem for_neighbors_linearizedSource (s s' : State)
    (h : for_neighbors s = Run.done s') :
    s'.energyDerivedData.source = s.energyDerivedData.source ∧
    s'.energyDerivedData.linearizedSource.length
      = 3 * s.energyDerivedData.source.vertices.length ∧
    ∀ v, v < s.energyDerivedData.source.vertices.length → ∀ j, j < 3 →
      ((v : Int) ∈ s.energyDerivedData.sourceIndices →
        ∃ p x, s.energyDerivedData.source.vertices[v]? = some p ∧ p[j]? = some x ∧
          s'.energyDerivedData.linearizedSource[3 * v + j]? = some x) ∧
      ((v : Int) ∉ s.energyDerivedData.sourceIndices →
        s'.energyDerivedData.linearizedSource[3 * v + j]? = some 0) := by
  obtain ⟨bufs, w, hb, _, rfl⟩ := (for_neighbors_done s s').mp h
  obtain ⟨h1, _, _, h4⟩ := linearizeSourceAndTargetLoop_done _ _ _ _ _ bufs hb
  refine ⟨rfl, h1, ?_⟩
  intro v hv j hj
  constructor
  · intro hmem
    obtain ⟨i, hi, hget, hlast⟩ := exists_last_occurrence _ _ hmem
    obtain ⟨sp, t, tp, x, y, e1, _, _, e4, _, e6, _⟩ := (h4 v hv j hj).2 i hi hget hlast
    exact ⟨sp, x, e1, e4, e6⟩
  · intro hno
    exact ((h4 v hv j hj).1 hno).1

theorem for_neighbors_linearizedSource_witness :
    ∃ s', for_neighbors scenarioState = Run.done s' ∧
      s'.energyDerivedData.linearizedSource = [0, 0, 0, 13, 14, 15, 0, 0, 0, 19, 20, 21] ∧
      (s'.energyDerivedData.source = scenarioState.energyDerivedData.source ∧
    s'.energyDerivedData.linearizedSource.length
      = 3 * scenarioState.energyDerivedData.source.vertices.length ∧
    ∀ v, v < scenarioState.energyDerivedData.source.vertices.length → ∀ j, j < 3 →
      ((v : Int) ∈ scenarioState.energyDerivedData.sourceIndices →
        ∃ p x, scenarioState.energyDerivedData.source.vertices[v]? = some p ∧ p[j]? = some x ∧
          s'.energyDerivedData.linearizedSource[3 * v + j]? = some x) ∧
      ((v : Int) ∉ scenarioState.energyDerivedData.sourceIndices →
        s'.energyDerivedData.linearizedSource[3 * v + j]? = some 0)) :=
  ⟨(for_neighbors scenarioState).state, rfl, by decide,
    for_neighbors_linearizedSource scenarioState _ rfl⟩

theorem correspondenceTarget_unprojected (useProjection : Bool) (target : Mesh)
    (sp : Vec) (t : Int)
    (hproj : useProjection = false ∨ target.has_normals = false) :
    correspondenceTarget useProjection target sp t = vectorAt target.vertices t := by
  unfold correspondenceTarget Mesh.get_vertices
  cases hv : vectorAt target.vertices t with
  | none => rfl
  | some tp =>
    rcases hproj with h | h <;> simp [h]

/-- C2: when the projection flag is off or the target mesh has no normals, and
the source indices are pairwise distinct, after a successful for_neighbors the
buffer linearizedTarget has length 3 * N, the triplet at offset
3 * sourceIndices[i] is the unmodified target vertex targetIndices[i] for every
correspondence i, and every triplet at a vertex not in sourceIndices is zero. -/
theorem for_neighbors_linearizedTarget_unprojected (s s' : State)
    (hproj : s.energySettings.useProjection = false ∨
      s.energyData.target.has_normals = false)
    (hdistinct : s.energyDerivedData.sourceIndices.Nodup)
    (h : for_neighbors s = Run.done s') :
    s'.energyDerivedData.linearizedTarget.length
      = 3 * s.energyDerivedData.source.vertices.length ∧
    (∀ i, i < s.energyDerivedData.sourceIndices.length →
      ∃ (k : Nat) (t : Int) (tp : Vec),
        s.energyDerivedData.sourceIndices[i]? = some (k : Int) ∧
        k < s.energyDerivedData.source.vertices.length ∧
        s.energyDerivedData.targetIndices[i]? = some t ∧
        vectorAt s.energyData.target.vertices t = some tp ∧
        ∀ j, j < 3 → ∃ y, tp[j]? = some y ∧
          s'.energyDerivedData.linearizedTarget[3 * k + j]? = some y) ∧
    (∀ v, v < s.energyDerivedData.source.vertices.length →
      (v : Int) ∉ s.energyDerivedData.sourceIndices →
      ∀ j, j < 3 → s'.energyDerivedData.linearizedTarget[3 * v + j]? = some 0) := by
  obtain ⟨bufs, w, hb, _, rfl⟩ := (for_neighbors_done s s').mp h
  obtain ⟨_, h2, h3, h4⟩ := linearizeSourceAndTargetLoop_done _ _ _ _ _ bufs hb
  refine ⟨h2, ?_, ?_⟩
  · intro i hi
    obtain ⟨k, hk, hkN⟩ := h3 i hi
    have hlast : ∀ i', i < i' → i' < s.energyDerivedData.sourceIndices.length →
        s.energyDerivedData.sourceIndices[i']? ≠ some (k : Int) := by
      intro i' h1 h2
      rw [← hk]
      exact fun e => (List.nodup_iff_getElem?_ne_getElem?.mp hdistinct) i i' h1 h2 e.symm
    obtain ⟨sp, t, tp, _, _, _, e2, e3, _, _, _, _⟩ := (h4 k hkN 0 (by omega)).2 i hi hk hlast
    rw [correspondenceTarget_unprojected _ _ _ _ hproj] at e3
    refine ⟨k, t, tp, hk, hkN, e2, e3, ?_⟩
    intro j hj
    obtain ⟨sp', t', tp', _, y, _, e2', e3', _, e5, _, e7⟩ :=
      (h4 k hkN j hj).2 i hi hk hlast
    rw [correspondenceTarget_unprojected _ _ _ _ hproj] at e3'
    rw [e2] at e2'
    cases e2'
    rw [e3] at e3'
    cases e3'
    exact ⟨y, e5, e7⟩
  · intro v hv hno j hj
    exact ((h4 v hv j hj).1 hno).2

theorem for_neighbors_linearizedTarget_unprojected_witness :
    ∃ s', for_neighbors scenarioState = Run.done s' ∧
      s'.energyDerivedData.linearizedTarget = [0, 0, 0, 1, 0, 0, 0, 0, 0, 0, 0, 1] ∧
      (s'.energyDerivedData.linearizedTarget.length
        = 3 * scenarioState.energyDerivedData.source.vertices.length ∧
      (∀ i, i < scenarioState.energyDerivedData.sourceIndices.length →
        ∃ (k : Nat) (t : Int) (tp : Vec),
          scenarioState.energyDerivedData.sourceIndices[i]? = some (k : Int) ∧
          k < scenarioState.energyDerivedData.source.vertices.length ∧
          scenarioState.energyDerivedData.targetIndices[i]? = some t ∧
          vectorAt scenarioState.energyData.target.vertices t = some tp ∧
          ∀ j, j < 3 → ∃ y, tp[j]? = some y ∧
            s'.energyDerivedData.linearizedTarget[3 * k + j]? = some y) ∧
      (∀ v, v < scenarioState.energyDerivedData.source.vertices.length →
        (v : Int) ∉ scenarioState.energyDerivedData.sourceIndices →
        ∀ j, j < 3 → s'.energyDerivedData.linearizedTarget[3 * v + j]? = some 0)) :=
  ⟨(for_neighbors scenarioState).state, rfl, by decide,
    for_neighbors_linearizedTarget_unprojected scenarioState _ (Or.inl rfl) (by decide) rfl⟩

/-- C3: last write wins. For every vertex v that occurs in sourceIndices there
is a last position i with sourceIndices[i] = v, and after a successful
for_neighbors the triplet of linearizedTarget at offset 3 * v is the (possibly
projected) target point of that last position. -/
theorem for_neighbors_last_write_wins (s s' : State) (v : Nat)
    (hv : (v : Int) ∈ s.energyDerivedData.sourceIndices)
    (h : for_neighbors s = Run.done s') :
    (∃ i, i < s.energyDerivedData.sourceIndices.length ∧
      s.energyDerivedData.sourceIndices[i]? = some (v : Int) ∧
      ∀ i', i < i' → i' < s.energyDerivedData.sourceIndices.length →
        s.energyDerivedData.sourceIndices[i']? ≠ some (v : Int)) ∧
    ∀ i, i < s.energyDerivedData.sourceIndices.length →
      s.energyDerivedData.sourceIndices[i]? = some (v : Int) →
      (∀ i', i < i' → i' < s.energyDerivedData.sourceIndices.length →
        s.energyDerivedData.sourceIndices[i']? ≠ some (v : Int)) →
      ∃ sp t tp, s.energyDerivedData.source.vertices[v]? = some sp ∧
        s.energyDerivedData.targetIndices[i]? = some t ∧
        correspondenceTarget s.energySettings.useProjection s.energyData.target sp t
          = some tp ∧
        ∀ j, j < 3 → ∃ y, tp[j]? = some y ∧
          s'.energyDerivedData.linearizedTarget[3 * v + j]? = some y := by
  obtain ⟨bufs, w, hb, _, rfl⟩ := (for_neighbors_done s s').mp h
  obtain ⟨_, _, h3, h4⟩ := linearizeSourceAndTargetLoop_done _ _ _ _ _ bufs hb
  refine ⟨exists_last_occurrence _ _ hv, ?_⟩
  intro i hi hiv hlast
  obtain ⟨k, hk, hkN⟩ := h3 i hi
  have hkv : k = v := by
    rw [hiv] at hk
    simpa using hk.symm
  subst hkv
  obtain ⟨sp, t, tp, _, _, e1, e2, e3, _, _, _, _⟩ := (h4 k hkN 0 (by omega)).2 i hi hiv hlast
  refine ⟨sp, t, tp, e1, e2, e3, ?_⟩
  intro j hj
  obtain ⟨sp', t', tp', _, y, e1', e2', e3', _, e5, _, e7⟩ :=
    (h4 k hkN j hj).2 i hi hiv hlast
  rw [e1] at e1'
  cases e1'
  rw [e2] at e2'
  cases e2'
  rw [e3] at e3'
  cases e3'
  exact ⟨y, e5, e7⟩

theorem for_neighbors_last_write_wins_witness :
    ∃ s', for_neighbors duplicateState = Run.done s' ∧
      s'.energyDerivedData.linearizedTarget = [4, 5, 6, 0, 0, 0, 0, 0, 0, 0, 0, 0] ∧
      ((∃ i, i < duplicateState.energyDerivedData.sourceIndices.length ∧
        duplicateState.energyDerivedData.sourceIndices[i]? = some ((0 : Nat) : Int) ∧
        ∀ i', i < i' → i' < duplicateState.energyDerivedData.sourceIndices.length →
          duplicateState.energyDerivedData.sourceIndices[i']? ≠ some ((0 : Nat) : Int)) ∧
      ∀ i, i < duplicateState.energyDerivedData.sourceIndices.length →
        duplicateState.energyDerivedData.sourceIndices[i]? = some ((0 : Nat) : Int) →
        (∀ i', i < i' → i' < duplicateState.energyDerivedData.sourceIndices.length →
          duplicateState.energyDerivedData.sourceIndices[i']? ≠ some ((0 : Nat) : Int)) →
        ∃ sp t tp, duplicateState.energyDerivedData.source.vertices[0]? = some sp ∧
          duplicateState.energyDerivedData.targetIndices[i]? = some t ∧
          correspondenceTarget duplicateState.energySettings.useProjection
            duplicateState.energyData.target sp t = some tp ∧
          ∀ j, j < 3 → ∃ y, tp[j]? = some y ∧
            s'.energyDerivedData.linearizedTarget[3 * 0 + j]? = some y) :=
  ⟨(for_neighbors duplicateState).state, rfl, by decide,
    for_neighbors_last_write_wins duplicateState _ 0 (by decide) rfl⟩

/-- C4: projection formula. With the projection switched on, a target with
normals and a single correspondence pairing source vertex k (point S) with
target vertex t (point T, normal n), after a successful for_neighbors the
triplet of linearizedTarget at offset 3 * k is S + dot(T - S, n) * n
componentwise and the triplet of linearizedSource at that offset is S. -/
theorem for_neighbors_projection (s s' : State) (k t : Nat) (normals : List Vec)
    (S0 S1 S2 T0 T1 T2 n0 n1 n2 : ℚ)
    (hflag : s.energySettings.useProjection = true)
    (hnormals : s.energyData.target.vertexNormals = some normals)
    (hsrc : s.energyDerivedData.sourceIndices = [(k : Int)])
    (htgt : s.energyDerivedData.targetIndices = [(t : Int)])
    (hS : s.energyDerivedData.source.vertices[k]? = some [S0, S1, S2])
    (hT : s.energyData.target.vertices[t]? = some [T0, T1, T2])
    (hn : normals[t]? = some [n0, n1, n2])
    (h : for_neighbors s = Run.done s') :
    s'.energyDerivedData.linearizedTarget[3 * k]? =
      some (S0 + ((T0 - S0) * n0 + (T1 - S1) * n1 + (T2 - S2) * n2) * n0) ∧
    s'.energyDerivedData.linearizedTarget[3 * k + 1]? =
      some (S1 + ((T0 - S0) * n0 + (T1 - S1) * n1 + (T2 - S2) * n2) * n1) ∧
    s'.energyDerivedData.linearizedTarget[3 * k + 2]? =
      some (S2 + ((T0 - S0) * n0 + (T1 - S1) * n1 + (T2 - S2) * n2) * n2) ∧
    s'.energyDerivedData.linearizedSource[3 * k]? = some S0 ∧
    s'.energyDerivedData.linearizedSource[3 * k + 1]? = some S1 ∧
    s'.energyDerivedData.linearizedSource[3 * k + 2]? = some S2 := by
  obtain ⟨bufs, w, hb, _, rfl⟩ := (for_neighbors_done s s').mp h
  obtain ⟨_, _, h3, h4⟩ := linearizeSourceAndTargetLoop_done _ _ _ _ _ bufs hb
  have hlen : s.energyDerivedData.sourceIndices.length = 1 := by simp [hsrc]
  have hget : s.energyDerivedData.sourceIndices[0]? = some (k : Int) := by simp [hsrc]
  have hkN : k < s.energyDerivedData.source.vertices.length := by
    obtain ⟨k', hk', hk'N⟩ := h3 0 (by omega)
    rw [hget] at hk'
    have : k = k' := by simpa using hk'
    omega
  have key : ∀ j, j < 3 → ∃ x y, [S0, S1, S2][j]? = some x ∧
      [S0 + ((T0 - S0) * n0 + (T1 - S1) * n1 + (T2 - S2) * n2) * n0,
       S1 + ((T0 - S0) * n0 + (T1 - S1) * n1 + (T2 - S2) * n2) * n1,
       S2 + ((T0 - S0) * n0 + (T1 - S1) * n1 + (T2 - S2) * n2) * n2][j]? = some y ∧
      bufs.1[3 * k + j]? = some x ∧ bufs.2[3 * k + j]? = some y := by
    intro j hj
    obtain ⟨sp, t', tp, x, y, e1, e2, e3, e4, e5, e6, e7⟩ :=
      (h4 k hkN j hj).2 0 (by omega) hget (fun i' h1 h2 => by omega)
    rw [hS] at e1
    cases e1
    rw [htgt] at e2
    simp only [List.getElem?_cons_zero, Option.some.injEq] at e2
    subst e2
    have hproj : correspondenceTarget s.energySettings.useProjection s.energyData.target
        [S0, S1, S2] (t : Int) =
        some [S0 + ((T0 - S0) * n0 + (T1 - S1) * n1 + (T2 - S2) * n2) * n0,
          S1 + ((T0 - S0) * n0 + (T1 - S1) * n1 + (T2 - S2) * n2) * n1,
          S2 + ((T0 - S0) * n0 + (T1 - S1) * n1 + (T2 - S2) * n2) * n2] := by
      simp only [correspondenceTarget, Mesh.get_vertices, Mesh.has_normals, vectorAt_natCast,
        hT, hflag, hnormals, hn, projectOntoNormal, vecSub, vecDot, vecAdd, vecScale]
      simp
      refine ⟨?_, ?_, ?_⟩ <;> left <;> ring
    rw [hproj] at e3
    cases e3
    exact ⟨x, y, e4, e5, e6, e7⟩
  obtain ⟨x0, y0, a0, b0, c0, d0⟩ := key 0 (by omega)
  obtain ⟨x1, y1, a1, b1, c1, d1⟩ := key 1 (by omega)
  obtain ⟨x2, y2, a2, b2, c2, d2⟩ := key 2 (by omega)
  simp only [List.getElem?_cons_zero, List.getElem?_cons_succ, Option.some.injEq] at a0 b0 a1 b1 a2 b2
  subst a0 b0 a1 b1 a2 b2
  exact ⟨d0, d1, d2, c0, c1, c2⟩

theorem for_neighbors_projection_witness :
    ∃ s', for_neighbors projectionState = Run.done s' ∧
      s'.energyDerivedData.linearizedTarget = [0, 0, 0, 58 / 25, 69 / 25, 1] ∧
      (s'.energyDerivedData.linearizedTarget[3 * 1]? =
        some ((1 : ℚ) + ((2 - 1) * (3 / 5) + (3 - 1) * (4 / 5) + (5 - 1) * 0) * (3 / 5)) ∧
      s'.energyDerivedData.linearizedTarget[3 * 1 + 1]? =
        some ((1 : ℚ) + ((2 - 1) * (3 / 5) + (3 - 1) * (4 / 5) + (5 - 1) * 0) * (4 / 5)) ∧
      s'.energyDerivedData.linearizedTarget[3 * 1 + 2]? =
        some ((1 : ℚ) + ((2 - 1) * (3 / 5) + (3 - 1) * (4 / 5) + (5 - 1) * 0) * 0) ∧
      s'.energyDerivedData.linearizedSource[3 * 1]? = some 1 ∧
      s'.energyDerivedData.linearizedSource[3 * 1 + 1]? = some 1 ∧
      s'.energyDerivedData.linearizedSource[3 * 1 + 2]? = some 1) :=
  ⟨(for_neighbors projectionState).state, rfl,
    by
      simp [for_neighbors, linearize_source_and_target, linearizeSourceAndTargetLoop,
        forLoop, Run.andThen, Run.map, projectionState, Run.state,
        linearizeSourceAndTargetStep, vectorAt, correspondenceTarget, Mesh.get_vertices,
        Mesh.has_normals, projectOntoNormal, vecSub, vecDot, vecAdd, vecScale,
        storePointPair, storeEntryPair, assignAt, zeros, updateDataTermWeight]
      norm_num,
    for_neighbors_projection projectionState _ 1 1 [[1, 0, 0], [3 / 5, 4 / 5, 0]]
      1 1 1 2 3 5 (3 / 5) (4 / 5) 0 rfl rfl rfl rfl rfl rfl rfl rfl⟩

/-! ## Projection onto the normal -/

theorem countOrOne_eq_max (c : Nat) : countOrOne c = ((max c 1 : Nat) : ℚ) := by
  unfold countOrOne
  by_cases hc : c = 0
  · simp [hc]
  · have : max c 1 = c := by omega
    simp [hc, this]

theorem for_landmarks_done (s s' : State) :
    for_landmarks s = Run.done s' ↔
      ∃ flags bs bt w,
        forEach s.energyData.landmarks markLandmark
          (List.replicate s.energyDerivedData.source.vertices.length false)
            = Run.done flags ∧
        linearizeLandmarkSourceLoop s.energyDerivedData.source.vertices
          s.energyData.landmarks (zeros (3 * s.energyDerivedData.source.vertices.length))
            = Run.done bs ∧
        linearizeLandmarkTargetLoop s.energyData.landmarks
          (zeros (3 * s.energyDerivedData.source.vertices.length)) = Run.done bt ∧
        s.energySettings.weights "landmarkTerm" = some w ∧
        s' = { s with energyDerivedData :=
          { s.energyDerivedData with
            isLandmark := flags
            linearizedLandmarkSource := bs
            linearizedLandmarkTarget := bt
            weights := s.energyDerivedData.weights.assign "landmarkTerm"
              (w / countOrOne s.energyData.landmarks.length) } } := by
  unfold for_landmarks setup_landmark_indicators linearize_landmark_source
    linearize_landmark_target
  simp only [Run.andThen_done, Run.map_done, Mesh.get_vertices]
  constructor
  · rintro ⟨s3, ⟨s2, ⟨s1, ⟨flags, hf, rfl⟩, ⟨bs, hbs, rfl⟩⟩, ⟨bt, hbt, rfl⟩⟩, hw⟩
    unfold updateLandmarkTermWeight at hw
    cases hk : s.energySettings.weights "landmarkTerm" with
    | none => simp [hk] at hw
    | some w =>
      simp only [hk, Run.done.injEq] at hw
      exact ⟨flags, bs, bt, w, hf, hbs, hbt, rfl, hw.symm⟩
  · rintro ⟨flags, bs, bt, w, hf, hbs, hbt, hw, rfl⟩
    refine ⟨_, ⟨_, ⟨_, ⟨flags, hf, rfl⟩, ⟨bs, hbs, rfl⟩⟩, ⟨bt, hbt, rfl⟩⟩, ?_⟩
    unfold updateLandmarkTermWeight
    simp [hw]

/-- C6: data term normalization. For the base weight w of "dataTerm" and the
correspondence count c (zero included), after a successful for_neighbors the
derived weight of "dataTerm" is w / max(c, 1), and the divisor is never zero. -/
theorem for_neighbors_dataTerm (s s' : State) (w : ℚ)
    (hw : s.energySettings.weights "dataTerm" = some w)
    (h : for_neighbors s = Run.done s') :
    s'.energyDerivedData.weights "dataTerm"
      = some (w / ((max s.energyDerivedData.sourceIndices.length 1 : Nat) : ℚ)) ∧
    ((max s.energyDerivedData.sourceIndices.length 1 : Nat) : ℚ) ≠ 0 := by
  obtain ⟨bufs, w', _, hw', rfl⟩ := (for_neighbors_done s s').mp h
  rw [hw] at hw'
  cases hw'
  constructor
  · simp [WeightMap.assign, countOrOne_eq_max]
  · have : 0 < max s.energyDerivedData.sourceIndices.length 1 := by omega
    exact_mod_cast this.ne'

theorem for_neighbors_dataTerm_witness :
    ∃ s', scenarioState.energySettings.weights "dataTerm" = some 3 ∧
      for_neighbors scenarioState = Run.done s' ∧
      s'.energyDerivedData.weights "dataTerm"
        = some (3 / ((max scenarioState.energyDerivedData.sourceIndices.length 1 : Nat) : ℚ)) ∧
      ((max scenarioState.energyDerivedData.sourceIndices.length 1 : Nat) : ℚ) ≠ 0 :=
  ⟨(for_neighbors scenarioState).state, rfl, rfl,
    for_neighbors_dataTerm scenarioState _ 3 rfl rfl⟩

/-- C7: landmark term normalization. For the base weight w of "landmarkTerm"
and a landmark list with c entries (the empty list included, duplicates of a
source index counted separately), after a successful for_landmarks the derived
weight of "landmarkTerm" is w / max(c, 1). -/
theorem for_landmarks_landmarkTerm (s s' : State) (w : ℚ)
    (hw : s.energySettings.weights "landmarkTerm" = some w)
    (h : for_landmarks s = Run.done s') :
    s'.energyDerivedData.weights "landmarkTerm"
      = some (w / ((max s.energyData.landmarks.length 1 : Nat) : ℚ)) := by
  obtain ⟨flags, bs, bt, w', _, _, _, hw', rfl⟩ := (for_landmarks_done s s').mp h
  rw [hw] at hw'
  cases hw'
  simp [WeightMap.assign, countOrOne_eq_max]

theorem for_landmarks_landmarkTerm_witness :
    ∃ s', landmarkState.energySettings.weights "landmarkTerm" = some 6 ∧
      for_landmarks landmarkState = Run.done s' ∧
      landmarkState.energyData.landmarks.length = 3 ∧
      s'.energyDerivedData.weights "landmarkTerm"
        = some (6 / ((max landmarkState.energyData.landmarks.length 1 : Nat) : ℚ)) :=
  ⟨(for_landmarks landmarkState).state, rfl, rfl, rfl,
    for_landmarks_landmarkTerm landmarkState _ 6 rfl rfl⟩

/-! ## Refresh for a change of the landmarks -/

theorem forEach_cons_done {α σ : Type} (x : α) (xs : List α) (body : α → σ → Run σ)
    (s s' : σ) :
    forEach (x :: xs) body s = Run.done s' ↔
      ∃ s1, body x s = Run.done s1 ∧ forEach xs body s1 = Run.done s' := by
  simp [forEach, Run.andThen_done]

theorem markLandmark_done (lm : Landmark) (flags marked : List Bool) :
    markLandmark lm flags = Run.done marked ↔
      0 ≤ lm.sourceIndex ∧ lm.sourceIndex.toNat < flags.length ∧
        marked = flags.set lm.sourceIndex.toNat true := by
  unfold markLandmark markAt
  split_ifs with hc
  · simp [hc.1, hc.2, eq_comm]
  · simp only [reduceCtorEq, false_iff]
    intro h1
    exact hc ⟨h1.1, h1.2.1⟩

/-- Flags after the loop of `setup_landmark_indicators` has returned. -/
theorem markLandmarks_done :
    ∀ (landmarks : List Landmark) (flags flags' : List Bool),
      forEach landmarks markLandmark flags = Run.done flags' →
      flags'.length = flags.length ∧
      ∀ v, v < flags.length →
        (flags'[v]? = some true ↔
          (flags[v]? = some true ∨ ∃ lm, lm ∈ landmarks ∧ lm.sourceIndex = (v : Int))) := by
  intro landmarks
  induction landmarks with
  | nil =>
    intro flags flags' h
    simp only [forEach, Run.done.injEq] at h
    subst h
    simp
  | cons lm rest ih =>
    intro flags flags' h
    obtain ⟨m, hm, hrest⟩ := (forEach_cons_done lm rest markLandmark flags flags').mp h
    obtain ⟨h0, hlt, rfl⟩ := (markLandmark_done lm flags m).mp hm
    obtain ⟨hlen, hiff⟩ := ih _ flags' hrest
    simp only [List.length_set] at hlen hiff
    refine ⟨hlen, ?_⟩
    intro v hv
    rw [hiff v hv, List.getElem?_set]
    by_cases hk : lm.sourceIndex.toNat = v
    · have hidx : lm.sourceIndex = (v : Int) := by omega
      simp [hk, hv, hidx]
    · have hidx : lm.sourceIndex ≠ (v : Int) := by omega
      simp [hk, hidx]

/-- C8: landmark indicator completeness. After a successful for_landmarks the
array isLandmark has exactly N entries, whatever its prior content and length,
and isLandmark[v] is true if and only if v is the sourceIndex of some current
landmark (and false otherwise). -/
theorem for_landmarks_isLandmark (s s' : State) (h : for_landmarks s = Run.done s') :
    s'.energyDerivedData.isLandmark.length = s.energyDerivedData.source.vertices.length ∧
    ∀ v, v < s.energyDerivedData.source.vertices.length →
      (s'.energyDerivedData.isLandmark[v]? = some true ↔
        ∃ lm, lm ∈ s.energyData.landmarks ∧ lm.sourceIndex = (v : Int)) ∧
      ((¬ ∃ lm, lm ∈ s.energyData.landmarks ∧ lm.sourceIndex = (v : Int)) →
        s'.energyDerivedData.isLandmark[v]? = some false) := by
  obtain ⟨flags, bs, bt, w, hf, _, _, _, rfl⟩ := (for_landmarks_done s s').mp h
  obtain ⟨hlen, hiff⟩ := markLandmarks_done _ _ _ hf
  simp only [List.length_replicate] at hlen hiff
  refine ⟨hlen, ?_⟩
  intro v hv
  have hmain : flags[v]? = some true ↔
      ∃ lm, lm ∈ s.energyData.landmarks ∧ lm.sourceIndex = (v : Int) := by
    rw [hiff v hv]
    simp [List.getElem?_replicate, hv]
  refine ⟨hmain, ?_⟩
  intro hno
  have hlt : v < flags.length := by omega
  rw [List.getElem?_eq_getElem hlt]
  cases hb : flags[v] with
  | false => rfl
  | true =>
    exfalso
    apply hno
    apply hmain.mp
    rw [List.getElem?_eq_getElem hlt, hb]

theorem for_landmarks_isLandmark_witness :
    ∃ s', for_landmarks landmarkState = Run.done s' ∧
      landmarkState.energyDerivedData.isLandmark = [true, true, true] ∧
      s'.energyDerivedData.isLandmark
        = [false, false, true, false, false, false, false, true] ∧
      (s'.energyDerivedData.isLandmark.length
        = landmarkState.energyDerivedData.source.vertices.length ∧
      ∀ v, v < landmarkState.energyDerivedData.source.vertices.length →
        (s'.energyDerivedData.isLandmark[v]? = some true ↔
          ∃ lm, lm ∈ landmarkState.energyData.landmarks ∧ lm.sourceIndex = (v : Int)) ∧
        ((¬ ∃ lm, lm ∈ landmarkState.energyData.landmarks ∧ lm.sourceIndex = (v : Int)) →
          s'.energyDerivedData.isLandmark[v]? = some false)) :=
  ⟨(for_landmarks landmarkState).state, rfl, rfl, by decide,
    for_landmarks_isLandmark landmarkState _ rfl⟩

theorem linearizeLandmarkSourceStep_done (sourceVertices : List Vec)
    (landmarks : List Landmark) (i : Nat) (buf buf' : Vec) :
    linearizeLandmarkSourceStep sourceVertices landmarks i buf = Run.done buf' ↔
      ∃ lm p, landmarks[i]? = some lm ∧ vectorAt sourceVertices lm.sourceIndex = some p ∧
        storePoint lm.sourceIndex p buf = Run.done buf' := by
  unfold linearizeLandmarkSourceStep
  cases hc1 : landmarks[i]? with
  | none => simp [*]
  | some lm =>
    simp only [Option.some.injEq, exists_eq_left']
    cases hc2 : vectorAt sourceVertices lm.sourceIndex with
    | none => simp [*]
    | some p => simp [*]

theorem linearizeLandmarkTargetStep_done (landmarks : List Landmark) (i : Nat)
    (buf buf' : Vec) :
    linearizeLandmarkTargetStep landmarks i buf = Run.done buf' ↔
      ∃ lm, landmarks[i]? = some lm ∧
        storePoint lm.sourceIndex lm.targetPosition buf = Run.done buf' := by
  unfold linearizeLandmarkTargetStep
  cases hc1 : landmarks[i]? with
  | none => simp [*]
  | some lm => simp [*]

/-- C9: landmark linearization. After a successful for_landmarks both landmark
buffers have length 3 * N; every triplet at a vertex that is no landmark is zero
in both; for a vertex v that is some landmark's sourceIndex there is a last
landmark with that sourceIndex, the triplet of linearizedLandmarkSource at
offset 3 * v is the current source vertex v and the triplet of
linearizedLandmarkTarget is the targetPosition of that last landmark, whatever
the target mesh and the projection flag are. -/
theorem for_landmarks_linearized (s s' : State) (h : for_landmarks s = Run.done s') :
    s'.energyDerivedData.linearizedLandmarkSource.length
      = 3 * s.energyDerivedData.source.vertices.length ∧
    s'.energyDerivedData.linearizedLandmarkTarget.length
      = 3 * s.energyDerivedData.source.vertices.length ∧
    ∀ v, v < s.energyDerivedData.source.vertices.length →
      (((v : Int) ∉ s.energyData.landmarks.map Landmark.sourceIndex) →
        ∀ j, j < 3 →
          s'.energyDerivedData.linearizedLandmarkSource[3 * v + j]? = some 0 ∧
          s'.energyDerivedData.linearizedLandmarkTarget[3 * v + j]? = some 0) ∧
      (((v : Int) ∈ s.energyData.landmarks.map Landmark.sourceIndex) →
        ∃ (i : Nat) (lm : Landmark) (sp : Vec), s.energyData.landmarks[i]? = some lm ∧ lm.sourceIndex = (v : Int) ∧
          (∀ (i' : Nat) (lm' : Landmark), i < i' → s.energyData.landmarks[i']? = some lm' →
            lm'.sourceIndex ≠ (v : Int)) ∧
          s.energyDerivedData.source.vertices[v]? = some sp ∧
          ∀ j, j < 3 → ∃ x y, sp[j]? = some x ∧ lm.targetPosition[j]? = some y ∧
            s'.energyDerivedData.linearizedLandmarkSource[3 * v + j]? = some x ∧
            s'.energyDerivedData.linearizedLandmarkTarget[3 * v + j]? = some y) := by
  obtain ⟨flags, bs, bt, w, _, hbs, hbt, _, rfl⟩ := (for_landmarks_done s s').mp h
  unfold linearizeLandmarkSourceLoop at hbs
  unfold linearizeLandmarkTargetLoop at hbt
  have hS := scatter_loop id s.energyDerivedData.source.vertices.length
    (fun i => (s.energyData.landmarks.map Landmark.sourceIndex)[i]?)
    (fun i => (s.energyData.landmarks[i]?).bind
      (fun lm => vectorAt s.energyDerivedData.source.vertices lm.sourceIndex))
    (linearizeLandmarkSourceStep s.energyDerivedData.source.vertices s.energyData.landmarks)
    (by
      intro i b b' hb
      obtain ⟨lm, p, h1, h2, h3⟩ := (linearizeLandmarkSourceStep_done _ _ i b b').mp hb
      exact ⟨lm.sourceIndex, p, by simp [h1], by simp [h1, h2], h3⟩)
    s.energyData.landmarks.length _ bs rfl hbs
  have hT := scatter_loop id s.energyDerivedData.source.vertices.length
    (fun i => (s.energyData.landmarks.map Landmark.sourceIndex)[i]?)
    (fun i => (s.energyData.landmarks[i]?).map Landmark.targetPosition)
    (linearizeLandmarkTargetStep s.energyData.landmarks)
    (by
      intro i b b' hb
      obtain ⟨lm, h1, h3⟩ := (linearizeLandmarkTargetStep_done _ i b b').mp hb
      exact ⟨lm.sourceIndex, lm.targetPosition, by simp [h1], by simp [h1], h3⟩)
    s.energyData.landmarks.length _ bt rfl hbt
  obtain ⟨hS1, _, hS3⟩ := hS
  obtain ⟨hT1, _, hT3⟩ := hT
  simp only [id] at hS1 hT1 hS3 hT3
  refine ⟨hS1, hT1, ?_⟩
  intro v hv
  constructor
  · intro hno j hj
    have hno' := (not_mem_iff_getElem? _ _).mp hno
    simp only [List.length_map] at hno'
    exact ⟨(hS3 v hv j hj).1 hno', (hT3 v hv j hj).1 hno'⟩
  · intro hmem
    obtain ⟨i, hi, hget, hlast⟩ := exists_last_occurrence _ _ hmem
    simp only [List.length_map] at hi hlast
    have hlm : ∃ lm, s.energyData.landmarks[i]? = some lm ∧ lm.sourceIndex = (v : Int) := by
      simpa [List.getElem?_map] using hget
    obtain ⟨lm, hlm1, hlm2⟩ := hlm
    have hsp : ∃ sp, s.energyDerivedData.source.vertices[v]? = some sp :=
      ⟨_, List.getElem?_eq_getElem hv⟩
    obtain ⟨sp, hsp⟩ := hsp
    refine ⟨i, lm, sp, hlm1, hlm2, ?_, hsp, ?_⟩
    · intro i' lm' hlt hget' hidx
      have hi' : i' < s.energyData.landmarks.length := by
        by_contra hge
        rw [List.getElem?_eq_none (by omega)] at hget'
        simp at hget'
      exact hlast i' hlt hi' (by simp [List.getElem?_map, hget', hidx])
    · intro j hj
      obtain ⟨p, x, hp, hx, hbx⟩ := (hS3 v hv j hj).2 i hi hget hlast
      obtain ⟨q, y, hq, hy, hby⟩ := (hT3 v hv j hj).2 i hi hget hlast
      simp only [hlm1, Option.some_bind, Option.map_some', hlm2, vectorAt_natCast,
        Option.some.injEq] at hp hq
      rw [hsp] at hp
      cases hp
      subst hq
      exact ⟨x, y, hx, hy, hbx, hby⟩

theorem for_landmarks_linearized_witness :
    ∃ s', for_landmarks landmarkState = Run.done s' ∧
      landmarkState.energySettings.useProjection = true ∧
      s'.energyDerivedData.linearizedLandmarkSource
        = [0, 0, 0, 0, 0, 0, 16, 17, 18, 0, 0, 0, 0, 0, 0, 0, 0, 0, 0, 0, 0, 31, 32, 33] ∧
      s'.energyDerivedData.linearizedLandmarkTarget
        = [0, 0, 0, 0, 0, 0, 7, 8, 9, 0, 0, 0, 0, 0, 0, 0, 0, 0, 0, 0, 0, 4, 5, 6] ∧
      (s'.energyDerivedData.linearizedLandmarkSource.length
        = 3 * landmarkState.energyDerivedData.source.vertices.length ∧
      s'.energyDerivedData.linearizedLandmarkTarget.length
        = 3 * landmarkState.energyDerivedData.source.vertices.length ∧
      ∀ v, v < landmarkState.energyDerivedData.source.vertices.length →
        (((v : Int) ∉ landmarkState.energyData.landmarks.map Landmark.sourceIndex) →
          ∀ j, j < 3 →
            s'.energyDerivedData.linearizedLandmarkSource[3 * v + j]? = some 0 ∧
            s'.energyDerivedData.linearizedLandmarkTarget[3 * v + j]? = some 0) ∧
        (((v : Int) ∈ landmarkState.energyData.landmarks.map Landmark.sourceIndex) →
          ∃ (i : Nat) (lm : Landmark) (sp : Vec),
            landmarkState.energyData.landmarks[i]? = some lm ∧
            lm.sourceIndex = (v : Int) ∧
            (∀ (i' : Nat) (lm' : Landmark), i < i' →
              landmarkState.energyData.landmarks[i']? = some lm' →
              lm'.sourceIndex ≠ (v : Int)) ∧
            landmarkState.energyDerivedData.source.vertices[v]? = some sp ∧
            ∀ j, j < 3 → ∃ x y, sp[j]? = some x ∧ lm.targetPosition[j]? = some y ∧
              s'.energyDerivedData.linearizedLandmarkSource[3 * v + j]? = some x ∧
              s'.energyDerivedData.linearizedLandmarkTarget[3 * v + j]? = some y)) :=
  ⟨(for_landmarks landmarkState).state, rfl, rfl, by decide, by decide,
    for_landmarks_linearized landmarkState _ rfl⟩

/-! ## Locality of effect -/

/-- C10: locality of effect. On every state, whether the call returns or
throws, for_neighbors changes at most linearizedSource, linearizedTarget and
the derived weight "dataTerm"; for_landmarks changes at most isLandmark,
linearizedLandmarkSource, linearizedLandmarkTarget and the derived weight
"landmarkTerm"; for_weights changes at most the source mesh, linearizedSource
and linearizedLandmarkSource. All other derived fields, every other key of the
derived weights, the input data and the settings are the same before and after
the call. -/
theorem update_locality (s : State) :
    ((for_neighbors s).state.energyData = s.energyData ∧
      (for_neighbors s).state.energySettings = s.energySettings ∧
      (for_neighbors s).state.energyDerivedData.source = s.energyDerivedData.source ∧
      (for_neighbors s).state.energyDerivedData.sourceIndices
        = s.energyDerivedData.sourceIndices ∧
      (for_neighbors s).state.energyDerivedData.targetIndices
        = s.energyDerivedData.targetIndices ∧
      (for_neighbors s).state.energyDerivedData.linearizedLandmarkSource
        = s.energyDerivedData.linearizedLandmarkSource ∧
      (for_neighbors s).state.energyDerivedData.linearizedLandmarkTarget
        = s.energyDerivedData.linearizedLandmarkTarget ∧
      (for_neighbors s).state.energyDerivedData.isLandmark = s.energyDerivedData.isLandmark ∧
      ∀ key, key ≠ "dataTerm" →
        (for_neighbors s).state.energyDerivedData.weights key
          = s.energyDerivedData.weights key) ∧
    ((for_landmarks s).state.energyData = s.energyData ∧
      (for_landmarks s).state.energySettings = s.energySettings ∧
      (for_landmarks s).state.energyDerivedData.source = s.energyDerivedData.source ∧
      (for_landmarks s).state.energyDerivedData.sourceIndices
        = s.energyDerivedData.sourceIndices ∧
      (for_landmarks s).state.energyDerivedData.targetIndices
        = s.energyDerivedData.targetIndices ∧
      (for_landmarks s).state.energyDerivedData.linearizedSource
        = s.energyDerivedData.linearizedSource ∧
      (for_landmarks s).state.energyDerivedData.linearizedTarget
        = s.energyDerivedData.linearizedTarget ∧
      ∀ key, key ≠ "landmarkTerm" →
        (for_landmarks s).state.energyDerivedData.weights key
          = s.energyDerivedData.weights key) ∧
    ((for_weights s).state.energyData = s.energyData ∧
      (for_weights s).state.energySettings = s.energySettings ∧
      (for_weights s).state.energyDerivedData.sourceIndices
        = s.energyDerivedData.sourceIndices ∧
      (for_weights s).state.energyDerivedData.targetIndices
        = s.energyDerivedData.targetIndices ∧
      (for_weights s).state.energyDerivedData.linearizedTarget
        = s.energyDerivedData.linearizedTarget ∧
      (for_weights s).state.energyDerivedData.linearizedLandmarkTarget
        = s.energyDerivedData.linearizedLandmarkTarget ∧
      (for_weights s).state.energyDerivedData.isLandmark = s.energyDerivedData.isLandmark ∧
      (for_weights s).state.energyDerivedData.weights = s.energyDerivedData.weights) := by
  refine ⟨?_, ?_, ?_⟩
  · unfold for_neighbors linearize_source_and_target updateDataTermWeight
    simp only [Mesh.get_vertices]
    generalize linearizeSourceAndTargetLoop _ _ _ _ _ _ = r1
    cases r1 with
    | thrown bufs => simp [Run.map, Run.andThen, Run.state]
    | done bufs =>
      simp only [Run.map, Run.andThen]
      cases s.energySettings.weights "dataTerm" with
      | none => simp [Run.state]
      | some w =>
        simp only [Run.state, true_and]
        intro key hkey
        simp [WeightMap.assign, hkey]
  · unfold for_landmarks setup_landmark_indicators linearize_landmark_source
      linearize_landmark_target updateLandmarkTermWeight
    simp only [Mesh.get_vertices]
    generalize forEach _ _ _ = r1
    cases r1 with
    | thrown flags => simp [Run.map, Run.andThen, Run.state]
    | done flags =>
      simp only [Run.map, Run.andThen]
      generalize linearizeLandmarkSourceLoop _ _ _ = r2
      cases r2 with
      | thrown bs => simp [Run.map, Run.andThen, Run.state]
      | done bs =>
        simp only [Run.map, Run.andThen]
        generalize linearizeLandmarkTargetLoop _ _ = r3
        cases r3 with
        | thrown bt => simp [Run.map, Run.andThen, Run.state]
        | done bt =>
          simp only [Run.map, Run.andThen]
          cases s.energySettings.weights "landmarkTerm" with
          | none => simp [Run.state]
          | some w =>
            simp only [Run.state, true_and]
            intro key hkey
            simp [WeightMap.assign, hkey]
  · unfold for_weights linearize_source linearize_landmark_source
    simp only [Mesh.get_vertices]
    generalize linearizeSourceLoop _ _ _ = r1
    cases r1 with
    | thrown b => simp [Run.map, Run.andThen, Run.state]
    | done b =>
      simp only [Run.map, Run.andThen]
      generalize linearizeLandmarkSourceLoop _ _ _ = r2
      cases r2 with
      | thrown bs => simp [Run.state]
      | done bs => simp [Run.state]

/-! ## The two source linearizers -/

theorem linearize_source_done (s s' : State) :
    linearize_source s = Run.done s' ↔
      ∃ buf,
        linearizeSourceLoop s.energyDerivedData.source.vertices
          s.energyDerivedData.sourceIndices
          (zeros (3 * s.energyDerivedData.source.vertices.length)) = Run.done buf ∧
        s' = { s with energyDerivedData :=
          { s.energyDerivedData with linearizedSource := buf } } := by
  unfold linearize_source
  simp only [Run.map_done, Mesh.get_vertices]
  constructor
  · rintro ⟨buf, hb, rfl⟩
    exact ⟨buf, hb, rfl⟩
  · rintro ⟨buf, hb, rfl⟩
    exact ⟨buf, hb, rfl⟩

theorem linearize_source_and_target_done (s s' : State) :
    linearize_source_and_target s = Run.done s' ↔
      ∃ bufs,
        linearizeSourceAndTargetLoop s.energySettings.useProjection s.energyData.target
          s.energyDerivedData.source.vertices s.energyDerivedData.sourceIndices
          s.energyDerivedData.targetIndices
          (zeros (3 * s.energyDerivedData.source.vertices.length),
            zeros (3 * s.energyDerivedData.source.vertices.length)) = Run.done bufs ∧
        s' = { s with energyDerivedData :=
          { s.energyDerivedData with
            linearizedSource := bufs.1
            linearizedTarget := bufs.2 } } := by
  unfold linearize_source_and_target
  simp only [Run.map_done, Mesh.get_vertices]
  constructor
  · rintro ⟨bufs, hb, rfl⟩
    exact ⟨bufs, hb, rfl⟩
  · rintro ⟨bufs, hb, rfl⟩
    exact ⟨bufs, hb, rfl⟩

/-- The loop of `linearize_source_and_target`, restricted to the first buffer,
is the loop of `linearize_source`. -/
theorem linearizeSourceLoop_of_pair (useProjection : Bool) (target : Mesh)
    (sourceVertices : List Vec) (sourceIndices targetIndices : List Int)
    (bufs bufs' : Vec × Vec)
    (h : linearizeSourceAndTargetLoop useProjection target sourceVertices sourceIndices
      targetIndices bufs = Run.done bufs') :
    linearizeSourceLoop sourceVertices sourceIndices bufs.1 = Run.done bufs'.1 := by
  unfold linearizeSourceAndTargetLoop at h
  unfold linearizeSourceLoop
  refine forLoop_project Prod.fst _ _ ?_ _ _ _ h
  intro i b b' hb
  obtain ⟨k, t, sp, tp, h1, _, h3, _, h5⟩ :=
    (linearizeSourceAndTargetStep_done _ _ _ _ _ i b b').mp hb
  exact (linearizeSourceStep_done sourceVertices sourceIndices i b.1 b'.1).mpr
    ⟨k, sp, h1, h3, (storePointPair_done k sp tp b b' h5).1⟩

/-- C18: the two source linearizers agree. If linearize_source returns on a
state and linearize_source_and_target returns on a state with the same source
vertices and the same sourceIndices, both leave the same linearizedSource,
whatever the target indices, the target mesh, its normals and the projection
flag of either state are. -/
theorem source_linearizers_agree (s t s1 t1 : State)
    (hmesh : s.energyDerivedData.source.vertices = t.energyDerivedData.source.vertices)
    (hidx : s.energyDerivedData.sourceIndices = t.energyDerivedData.sourceIndices)
    (h1 : linearize_source s = Run.done s1)
    (h2 : linearize_source_and_target t = Run.done t1) :
    s1.energyDerivedData.linearizedSource = t1.energyDerivedData.linearizedSource := by
  obtain ⟨buf, hb, rfl⟩ := (linearize_source_done s s1).mp h1
  obtain ⟨bufs, hbs, rfl⟩ := (linearize_source_and_target_done t t1).mp h2
  have h3 := linearizeSourceLoop_of_pair _ _ _ _ _ _ _ hbs
  rw [← hmesh, ← hidx] at h3
  simp only at h3
  rw [hb] at h3
  simpa using h3

theorem source_linearizers_agree_witness :
    ∃ s1 t1, linearize_source scenarioState = Run.done s1 ∧
      linearize_source_and_target scenarioProjectedState = Run.done t1 ∧
      scenarioState.energyData.target ≠ scenarioProjectedState.energyData.target ∧
      scenarioState.energyDerivedData.targetIndices
        ≠ scenarioProjectedState.energyDerivedData.targetIndices ∧
      s1.energyDerivedData.linearizedSource = [0, 0, 0, 13, 14, 15, 0, 0, 0, 19, 20, 21] ∧
      s1.energyDerivedData.linearizedSource = t1.energyDerivedData.linearizedSource :=
  ⟨(linearize_source scenarioState).state,
    (linearize_source_and_target scenarioProjectedState).state, rfl, rfl,
    by simp [scenarioState, scenarioProjectedState, scenarioTarget],
    by simp [scenarioState, scenarioProjectedState], by decide,
    source_linearizers_agree scenarioState scenarioProjectedState _ _ rfl rfl rfl rfl⟩

/-! ## Commutation and idempotence -/

theorem WeightMap.assign_assign (m : WeightMap) (key : String) (a b : ℚ) :
    (m.assign key a).assign key b = m.assign key b := by
  funext k
  unfold WeightMap.assign
  by_cases hk : k = key <;> simp [hk]

theorem WeightMap.assign_comm (m : WeightMap) (k1 k2 : String) (a b : ℚ) (h : k1 ≠ k2) :
    (m.assign k1 a).assign k2 b = (m.assign k2 b).assign k1 a := by
  funext k
  unfold WeightMap.assign
  by_cases h1 : k = k1
  · subst h1
    simp [h]
  · simp [h1]

/-- C20: the correspondence refresh and the landmark refresh commute. On every
state on which both orders return, for_neighbors followed by for_landmarks
leaves the same state, hence the same derived data, as for_landmarks followed
by for_neighbors. -/
theorem for_neighbors_for_landmarks_commute (s s1 s2 t1 t2 : State)
    (hN : for_neighbors s = Run.done s1) (hNL : for_landmarks s1 = Run.done s2)
    (hL : for_landmarks s = Run.done t1) (hLN : for_neighbors t1 = Run.done t2) :
    s2 = t2 ∧ s2.energyDerivedData = t2.energyDerivedData := by
  obtain ⟨bufs, w, hb, hw, rfl⟩ := (for_neighbors_done s s1).mp hN
  obtain ⟨flags, bs, bt, v, hf, hbs, hbt, hv, rfl⟩ := (for_landmarks_done _ s2).mp hNL
  obtain ⟨flags', bs', bt', v', hf', hbs', hbt', hv', rfl⟩ := (for_landmarks_done s t1).mp hL
  obtain ⟨bufs', w', hb', hw', rfl⟩ := (for_neighbors_done _ t2).mp hLN
  simp only at hf hbs hbt hv hb' hw'
  rw [hf] at hf'
  rw [hbs] at hbs'
  rw [hbt] at hbt'
  rw [hv] at hv'
  rw [hb] at hb'
  rw [hw] at hw'
  cases hf'
  cases hbs'
  cases hbt'
  cases hv'
  cases hb'
  cases hw'
  have hweights :
      (s.energyDerivedData.weights.assign "dataTerm"
          (w / countOrOne s.energyDerivedData.sourceIndices.length)).assign "landmarkTerm"
          (v / countOrOne s.energyData.landmarks.length)
        = (s.energyDerivedData.weights.assign "landmarkTerm"
          (v / countOrOne s.energyData.landmarks.length)).assign "dataTerm"
          (w / countOrOne s.energyDerivedData.sourceIndices.length) :=
    WeightMap.assign_comm _ _ _ _ _ (by decide)
  have hstate : ({ s with energyDerivedData :=
      { s.energyDerivedData with
        linearizedSource := bufs.1
        linearizedTarget := bufs.2
        linearizedLandmarkSource := bs
        linearizedLandmarkTarget := bt
        isLandmark := flags
        weights := (s.energyDerivedData.weights.assign "dataTerm"
          (w / countOrOne s.energyDerivedData.sourceIndices.length)).assign "landmarkTerm"
          (v / countOrOne s.energyData.landmarks.length) } } : State)
      = { s with energyDerivedData :=
      { s.energyDerivedData with
        linearizedSource := bufs.1
        linearizedTarget := bufs.2
        linearizedLandmarkSource := bs
        linearizedLandmarkTarget := bt
        isLandmark := flags
        weights := (s.energyDerivedData.weights.assign "landmarkTerm"
          (v / countOrOne s.energyData.landmarks.length)).assign "dataTerm"
          (w / countOrOne s.energyDerivedData.sourceIndices.length) } } := by
    rw [hweights]
  exact ⟨hstate, congrArg State.energyDerivedData hstate⟩

theorem for_neighbors_for_landmarks_commute_witness :
    ∃ s1 s2 t1 t2, for_neighbors fullState = Run.done s1 ∧
      for_landmarks s1 = Run.done s2 ∧ for_landmarks fullState = Run.done t1 ∧
      for_neighbors t1 = Run.done t2 ∧ s2 = t2 ∧
      s2.energyDerivedData = t2.energyDerivedData :=
  ⟨(for_neighbors fullState).state,
    (for_landmarks (for_neighbors fullState).state).state,
    (for_landmarks fullState).state,
    (for_neighbors (for_landmarks fullState).state).state, rfl, rfl, rfl, rfl,
    for_neighbors_for_landmarks_commute fullState _ _ _ _ rfl rfl rfl rfl⟩

theorem for_weights_done (s s' : State) :
    for_weights s = Run.done s' ↔
      ∃ buf bl,
        linearizeSourceLoop
          (s.energyData.model s.energyData.speakerWeights s.energyData.phonemeWeights).vertices
          s.energyDerivedData.sourceIndices
          (zeros (3 * (s.energyData.model s.energyData.speakerWeights
            s.energyData.phonemeWeights).vertices.length)) = Run.done buf ∧
        linearizeLandmarkSourceLoop
          (s.energyData.model s.energyData.speakerWeights s.energyData.phonemeWeights).vertices
          s.energyData.landmarks
          (zeros (3 * (s.energyData.model s.energyData.speakerWeights
            s.energyData.phonemeWeights).vertices.length)) = Run.done bl ∧
        s' = { s with energyDerivedData :=
          { s.energyDerivedData with
            source := s.energyData.model s.energyData.speakerWeights
              s.energyData.phonemeWeights
            linearizedSource := buf
            linearizedLandmarkSource := bl } } := by
  unfold for_weights linearize_source linearize_landmark_source
  simp only [Run.andThen_done, Run.map_done, Mesh.get_vertices]
  constructor
  · rintro ⟨s1, ⟨buf, hb, rfl⟩, ⟨bl, hbl, rfl⟩⟩
    exact ⟨buf, bl, hb, hbl, rfl⟩
  · rintro ⟨buf, bl, hb, hbl, rfl⟩
    exact ⟨_, ⟨buf, hb, rfl⟩, ⟨bl, hbl, rfl⟩⟩

/-- C14: idempotence. If for_neighbors, for_landmarks or for_weights returns
on a state, then the same operation invoked again on the resulting state (same
inputs and settings) returns and leaves the whole state, hence the whole
derived data, as it was after the first invocation. -/
theorem refresh_idempotent (s s1 : State) :
    (for_neighbors s = Run.done s1 → for_neighbors s1 = Run.done s1) ∧
    (for_landmarks s = Run.done s1 → for_landmarks s1 = Run.done s1) ∧
    (for_weights s = Run.done s1 → for_weights s1 = Run.done s1) := by
  refine ⟨?_, ?_, ?_⟩
  · intro h
    obtain ⟨bufs, w, hb, hw, rfl⟩ := (for_neighbors_done s s1).mp h
    rw [for_neighbors_done]
    refine ⟨bufs, w, hb, hw, ?_⟩
    simp only [WeightMap.assign_assign]
  · intro h
    obtain ⟨flags, bs, bt, w, hf, hbs, hbt, hw, rfl⟩ := (for_landmarks_done s s1).mp h
    rw [for_landmarks_done]
    refine ⟨flags, bs, bt, w, hf, hbs, hbt, hw, ?_⟩
    simp only [WeightMap.assign_assign]
  · intro h
    obtain ⟨buf, bl, hb, hbl, rfl⟩ := (for_weights_done s s1).mp h
    rw [for_weights_done]
    exact ⟨buf, bl, hb, hbl, rfl⟩

theorem refresh_idempotent_witness :
    (∃ s1, for_neighbors fullState = Run.done s1 ∧ for_neighbors s1 = Run.done s1) ∧
    (∃ s1, for_landmarks fullState = Run.done s1 ∧ for_landmarks s1 = Run.done s1) ∧
    (∃ s1, for_weights fullState = Run.done s1 ∧ for_weights s1 = Run.done s1) :=
  ⟨⟨(for_neighbors fullState).state, rfl, (refresh_idempotent fullState _).1 rfl⟩,
    ⟨(for_landmarks fullState).state, rfl, (refresh_idempotent fullState _).2.1 rfl⟩,
    ⟨(for_weights fullState).state, rfl, (refresh_idempotent fullState _).2.2 rfl⟩⟩

/-! ## Weights other than the term weights -/

/-- C17, counterexample: the settings hold the weight 2 for "smoothnessTerm",
the derived weights hold nothing for it, and after a returning for_neighbors
and for_landmarks the derived weights still hold nothing for it. -/
theorem weights_not_passed_through :
    ∃ s1 s2, for_neighbors fullState = Run.done s1 ∧ for_landmarks s1 = Run.done s2 ∧
      fullState.energySettings.weights "smoothnessTerm" = some 2 ∧
      s2.energySettings.weights "smoothnessTerm" = some 2 ∧
      s2.energyDerivedData.weights "smoothnessTerm" = none :=
  ⟨(for_neighbors fullState).state,
    (for_landmarks (for_neighbors fullState).state).state, rfl, rfl, rfl, rfl, rfl⟩

/-- C17, amended: after a returning for_neighbors followed by a returning
for_landmarks, for every key other than "dataTerm" and "landmarkTerm" the
derived weights hold exactly what they held before the two calls, and the
settings are unchanged; so the derived weight of such a key equals the settings
weight afterwards if and only if it did before. -/
theorem other_weights_untouched (s s1 s2 : State)
    (hN : for_neighbors s = Run.done s1) (hL : for_landmarks s1 = Run.done s2)
    (key : String) (h1 : key ≠ "dataTerm") (h2 : key ≠ "landmarkTerm") :
    s2.energyDerivedData.weights key = s.energyDerivedData.weights key ∧
    s2.energySettings.weights key = s.energySettings.weights key ∧
    (s2.energyDerivedData.weights key = s2.energySettings.weights key ↔
      s.energyDerivedData.weights key = s.energySettings.weights key) := by
  obtain ⟨bufs, w, _, _, rfl⟩ := (for_neighbors_done s s1).mp hN
  obtain ⟨flags, bs, bt, v, _, _, _, _, rfl⟩ := (for_landmarks_done _ s2).mp hL
  have hd : ((s.energyDerivedData.weights.assign "dataTerm"
      (w / countOrOne s.energyDerivedData.sourceIndices.length)).assign "landmarkTerm"
      (v / countOrOne s.energyData.landmarks.length)) key = s.energyDerivedData.weights key := by
    simp [WeightMap.assign, h1, h2]
  refine ⟨hd, rfl, ?_⟩
  simp only
  rw [hd]

theorem other_weights_untouched_witness :
    ∃ s1 s2, for_neighbors fullState = Run.done s1 ∧ for_landmarks s1 = Run.done s2 ∧
      (s2.energyDerivedData.weights "smoothnessTerm"
          = fullState.energyDerivedData.weights "smoothnessTerm" ∧
        s2.energySettings.weights "smoothnessTerm"
          = fullState.energySettings.weights "smoothnessTerm" ∧
        (s2.energyDerivedData.weights "smoothnessTerm"
            = s2.energySettings.weights "smoothnessTerm" ↔
          fullState.energyDerivedData.weights "smoothnessTerm"
            = fullState.energySettings.weights "smoothnessTerm")) :=
  ⟨(for_neighbors fullState).state,
    (for_landmarks (for_neighbors fullState).state).state, rfl, rfl,
    other_weights_untouched fullState _ _ rfl rfl "smoothnessTerm" (by decide) (by decide)⟩

/-! ## Aborted calls -/

theorem forLoop_done_each {σ : Type} (body : Nat → σ → Run σ) :
    ∀ n s s', forLoop n body s = Run.done s' →
      ∀ i, i < n → ∃ a b, body i a = Run.done b := by
  intro n
  induction n with
  | zero =>
    intro s s' _ i hi
    omega
  | succ n ih =>
    intro s s' h i hi
    obtain ⟨s1, h1, h2⟩ := (forLoop_succ_done n body s s').mp h
    by_cases hin : i = n
    · subst hin
      exact ⟨s1, s', h2⟩
    · exact ih s s1 h1 i (by omega)

theorem forLoop_congr {σ : Type} (body body' : Nat → σ → Run σ) :
    ∀ n, (∀ i, i < n → ∀ s, body i s = body' i s) →
      ∀ s, forLoop n body s = forLoop n body' s := by
  intro n
  induction n with
  | zero =>
    intro _ s
    rfl
  | succ n ih =>
    intro h s
    simp only [forLoop]
    rw [ih (fun i hi => h i (by omega)) s]
    cases forLoop n body' s with
    | done s1 => exact h n (by omega) s1
    | thrown s1 => rfl

theorem Run.not_done_iff_thrown {σ : Type} (r : Run σ) :
    (¬ ∃ s, r = Run.done s) ↔ ∃ t, r = Run.thrown t := by
  cases r <;> simp

/-- C12, counterexample: with sourceIndices = [1, 3] and targetIndices =
[0, 2, 9] the two lists have different lengths, yet for_neighbors returns. -/
theorem longer_targetIndices_not_fatal :
    surplusState.energyDerivedData.sourceIndices.length
      ≠ surplusState.energyDerivedData.targetIndices.length ∧
    ∃ s', for_neighbors surplusState = Run.done s' :=
  ⟨by decide, (for_neighbors surplusState).state, rfl⟩

/-- C12, amended: if targetIndices is shorter than sourceIndices then
for_neighbors throws; if it is longer, the surplus target indices are never
read: the loop of linearize_source_and_target behaves as on the list cut to
the length of sourceIndices. -/
theorem shorter_targetIndices_fatal (s : State) :
    (s.energyDerivedData.targetIndices.length < s.energyDerivedData.sourceIndices.length →
      ∃ t, for_neighbors s = Run.thrown t) ∧
    ∀ bufs, linearizeSourceAndTargetLoop s.energySettings.useProjection s.energyData.target
        s.energyDerivedData.source.vertices s.energyDerivedData.sourceIndices
        s.energyDerivedData.targetIndices bufs =
      linearizeSourceAndTargetLoop s.energySettings.useProjection s.energyData.target
        s.energyDerivedData.source.vertices s.energyDerivedData.sourceIndices
        (s.energyDerivedData.targetIndices.take s.energyDerivedData.sourceIndices.length)
        bufs := by
  constructor
  · intro hlt
    rw [← Run.not_done_iff_thrown]
    rintro ⟨s', hs'⟩
    obtain ⟨bufs, w, hb, _, _⟩ := (for_neighbors_done s s').mp hs'
    unfold linearizeSourceAndTargetLoop at hb
    obtain ⟨a, b, hab⟩ := forLoop_done_each _ _ _ _ hb
      s.energyDerivedData.targetIndices.length hlt
    obtain ⟨k, t, sp, tp, _, h2, _⟩ := (linearizeSourceAndTargetStep_done _ _ _ _ _ _ a b).mp hab
    rw [List.getElem?_eq_none (le_refl _)] at h2
    simp at h2
  · intro bufs
    unfold linearizeSourceAndTargetLoop
    apply forLoop_congr
    intro i hi b
    unfold linearizeSourceAndTargetStep
    rw [List.getElem?_take_of_lt hi]

theorem shorter_targetIndices_fatal_witness :
    shortageState.energyDerivedData.targetIndices.length
      < shortageState.energyDerivedData.sourceIndices.length ∧
    ∃ t, for_neighbors shortageState = Run.thrown t :=
  ⟨by decide, (shorter_targetIndices_fatal shortageState).1 (by decide)⟩

/-- C11, counterexample: for_neighbors throws on a state whose second source
index is out of range, and the derived data left behind differs from the
derived data before the call: linearizedSource has been zero-filled and holds
the vertex of the first correspondence. -/
theorem for_neighbors_not_atomic :
    ∃ t, for_neighbors outOfRangeState = Run.thrown t ∧
      outOfRangeState.energyDerivedData.linearizedSource
        = [5, 5, 5, 5, 5, 5, 5, 5, 5, 5, 5, 5, 5] ∧
      t.energyDerivedData.linearizedSource = [0, 0, 0, 13, 14, 15, 0, 0, 0, 0, 0, 0] ∧
      t.energyDerivedData ≠ outOfRangeState.energyDerivedData :=
  ⟨(for_neighbors outOfRangeState).state, rfl, rfl, by decide,
    fun h => absurd (congrArg EnergyDerivedData.linearizedSource h) (by decide)⟩

/-- C11, amended: when for_neighbors throws, the derived data left behind
equals the derived data before the call in every field other than
linearizedSource and linearizedTarget; when for_landmarks throws, it equals the
derived data before the call in every field other than isLandmark,
linearizedLandmarkSource and linearizedLandmarkTarget. In both cases the
derived weights are entirely unchanged. -/
theorem aborted_refresh_frame (s t : State) :
    (for_neighbors s = Run.thrown t →
      t.energyDerivedData = { s.energyDerivedData with
        linearizedSource := t.energyDerivedData.linearizedSource
        linearizedTarget := t.energyDerivedData.linearizedTarget }) ∧
    (for_landmarks s = Run.thrown t →
      t.energyDerivedData = { s.energyDerivedData with
        isLandmark := t.energyDerivedData.isLandmark
        linearizedLandmarkSource := t.energyDerivedData.linearizedLandmarkSource
        linearizedLandmarkTarget := t.energyDerivedData.linearizedLandmarkTarget }) := by
  constructor
  · unfold for_neighbors linearize_source_and_target updateDataTermWeight
    simp only [Mesh.get_vertices]
    generalize linearizeSourceAndTargetLoop _ _ _ _ _ _ = r1
    cases r1 with
    | thrown bufs =>
      simp only [Run.map, Run.andThen, Run.thrown.injEq]
      rintro rfl
      rfl
    | done bufs =>
      simp only [Run.map, Run.andThen]
      cases s.energySettings.weights "dataTerm" with
      | none =>
        simp only [Run.thrown.injEq]
        rintro rfl
        rfl
      | some w => simp
  · unfold for_landmarks setup_landmark_indicators linearize_landmark_source
      linearize_landmark_target updateLandmarkTermWeight
    simp only [Mesh.get_vertices]
    generalize forEach _ _ _ = r1
    cases r1 with
    | thrown flags =>
      simp only [Run.map, Run.andThen, Run.thrown.injEq]
      rintro rfl
      rfl
    | done flags =>
      simp only [Run.map, Run.andThen]
      generalize linearizeLandmarkSourceLoop _ _ _ = r2
      cases r2 with
      | thrown bs =>
        simp only [Run.map, Run.andThen, Run.thrown.injEq]
        rintro rfl
        rfl
      | done bs =>
        simp only [Run.map, Run.andThen]
        generalize linearizeLandmarkTargetLoop _ _ = r3
        cases r3 with
        | thrown bt =>
          simp only [Run.map, Run.andThen, Run.thrown.injEq]
          rintro rfl
          rfl
        | done bt =>
          simp only [Run.map, Run.andThen]
          cases s.energySettings.weights "landmarkTerm" with
          | none =>
            simp only [Run.thrown.injEq]
            rintro rfl
            rfl
          | some w => simp

theorem aborted_refresh_frame_witness :
    (∃ t, for_neighbors outOfRangeState = Run.thrown t ∧
      t.energyDerivedData = { outOfRangeState.energyDerivedData with
        linearizedSource := t.energyDerivedData.linearizedSource
        linearizedTarget := t.energyDerivedData.linearizedTarget }) ∧
    (∃ t, for_landmarks outOfRangeLandmarkState = Run.thrown t ∧
      t.energyDerivedData.isLandmark
        = [false, false, true, false, false, false, false, true] ∧
      t.energyDerivedData = { outOfRangeLandmarkState.energyDerivedData with
        isLandmark := t.energyDerivedData.isLandmark
        linearizedLandmarkSource := t.energyDerivedData.linearizedLandmarkSource
        linearizedLandmarkTarget := t.energyDerivedData.linearizedLandmarkTarget }) :=
  ⟨⟨(for_neighbors outOfRangeState).state, rfl,
      (aborted_refresh_frame outOfRangeState _).1 rfl⟩,
    ⟨(for_landmarks outOfRangeLandmarkState).state, rfl, by decide,
      (aborted_refresh_frame outOfRangeLandmarkState _).2 rfl⟩⟩

/-! ## Buffer lengths -/

theorem forLoop_invariant {σ : Type} (Inv : σ → Prop) (body : Nat → σ → Run σ)
    (hstep : ∀ i s s', Inv s → body i s = Run.done s' → Inv s') :
    ∀ n s s', Inv s → forLoop n body s = Run.done s' → Inv s' := by
  intro n
  induction n with
  | zero =>
    intro s s' hs h
    simp only [forLoop, Run.done.injEq] at h
    exact h ▸ hs
  | succ n ih =>
    intro s s' hs h
    obtain ⟨s1, h1, h2⟩ := (forLoop_succ_done n body s s').mp h
    exact hstep n s1 s' (ih s s1 hs h1) h2

theorem linearizeSourceLoop_length (sourceVertices : List Vec) (sourceIndices : List Int)
    (buf buf' : Vec)
    (h : linearizeSourceLoop sourceVertices sourceIndices buf = Run.done buf') :
    buf'.length = buf.length := by
  unfold linearizeSourceLoop at h
  refine forLoop_invariant (fun b => b.length = buf.length) _ ?_ _ _ _ rfl h
  intro i b b' hb hstep
  obtain ⟨k, p, _, _, hstore⟩ := (linearizeSourceStep_done _ _ i b b').mp hstep
  rw [(storePoint_entries k p b b' hstore).1, hb]

theorem linearizeLandmarkSourceLoop_length (sourceVertices : List Vec)
    (landmarks : List Landmark) (buf buf' : Vec)
    (h : linearizeLandmarkSourceLoop sourceVertices landmarks buf = Run.done buf') :
    buf'.length = buf.length := by
  unfold linearizeLandmarkSourceLoop at h
  refine forLoop_invariant (fun b => b.length = buf.length) _ ?_ _ _ _ rfl h
  intro i b b' hb hstep
  obtain ⟨lm, p, _, _, hstore⟩ := (linearizeLandmarkSourceStep_done _ _ i b b').mp hstep
  rw [(storePoint_entries _ p b b' hstore).1, hb]

theorem linearizeLandmarkTargetLoop_length (landmarks : List Landmark) (buf buf' : Vec)
    (h : linearizeLandmarkTargetLoop landmarks buf = Run.done buf') :
    buf'.length = buf.length := by
  unfold linearizeLandmarkTargetLoop at h
  refine forLoop_invariant (fun b => b.length = buf.length) _ ?_ _ _ _ rfl h
  intro i b b' hb hstep
  obtain ⟨lm, _, hstore⟩ := (linearizeLandmarkTargetStep_done _ i b b').mp hstep
  rw [(storePoint_entries _ _ b b' hstore).1, hb]

/-- C16, counterexample: before the first refresh the source mesh and all four
buffers are empty, so the invariant holds; for_weights returns with a source
mesh of four vertices, linearizedSource has 12 entries, but linearizedTarget
and linearizedLandmarkTarget are still empty. -/
theorem for_weights_breaks_buffer_lengths :
    bufferLengthsOk freshState.energyDerivedData ∧
    ∃ s', for_weights freshState = Run.done s' ∧
      s'.energyDerivedData.source.vertices.length = 4 ∧
      s'.energyDerivedData.linearizedSource.length = 12 ∧
      s'.energyDerivedData.linearizedTarget.length = 0 ∧
      ¬ bufferLengthsOk s'.energyDerivedData :=
  ⟨by unfold bufferLengthsOk; decide,
    (for_weights freshState).state, rfl, by decide, by decide, by decide,
    by unfold bufferLengthsOk; decide⟩

/-- C16, amended: on a state whose four dense buffers have length
3 * sourceVertexCount, every returning for_neighbors, for_landmarks and
source_normals leaves all four buffers with length 3 * sourceVertexCount. A
returning for_weights leaves linearizedSource and linearizedLandmarkSource with
three entries per vertex of the reconstructed mesh and leaves linearizedTarget
and linearizedLandmarkTarget as they were, so it keeps the invariant when the
reconstructed mesh has as many vertices as the previous source mesh. -/
theorem buffer_lengths_preserved (estimate : Mesh → List Vec) (s s' : State)
    (hinv : bufferLengthsOk s.energyDerivedData) :
    (for_neighbors s = Run.done s' → bufferLengthsOk s'.energyDerivedData) ∧
    (for_landmarks s = Run.done s' → bufferLengthsOk s'.energyDerivedData) ∧
    (source_normals estimate s = Run.done s' → bufferLengthsOk s'.energyDerivedData) ∧
    (for_weights s = Run.done s' →
      s'.energyDerivedData.linearizedSource.length
        = 3 * s'.energyDerivedData.source.vertices.length ∧
      s'.energyDerivedData.linearizedLandmarkSource.length
        = 3 * s'.energyDerivedData.source.vertices.length ∧
      s'.energyDerivedData.linearizedTarget = s.energyDerivedData.linearizedTarget ∧
      s'.energyDerivedData.linearizedLandmarkTarget
        = s.energyDerivedData.linearizedLandmarkTarget ∧
      (s'.energyDerivedData.source.vertices.length
          = s.energyDerivedData.source.vertices.length →
        bufferLengthsOk s'.energyDerivedData)) := by
  obtain ⟨i1, i2, i3, i4⟩ := hinv
  refine ⟨?_, ?_, ?_, ?_⟩
  · intro h
    obtain ⟨bufs, w, hb, _, rfl⟩ := (for_neighbors_done s s').mp h
    obtain ⟨h1, h2, _, _⟩ := linearizeSourceAndTargetLoop_done _ _ _ _ _ bufs hb
    exact ⟨h1, h2, i3, i4⟩
  · intro h
    obtain ⟨flags, bs, bt, w, _, hbs, hbt, _, rfl⟩ := (for_landmarks_done s s').mp h
    have h1 := linearizeLandmarkSourceLoop_length _ _ _ _ hbs
    have h2 := linearizeLandmarkTargetLoop_length _ _ _ hbt
    rw [zeros_length] at h1 h2
    exact ⟨i1, i2, h1, h2⟩
  · intro h
    unfold source_normals at h
    simp only [Run.done.injEq] at h
    subst h
    exact ⟨i1, i2, i3, i4⟩
  · intro h
    obtain ⟨buf, bl, hb, hbl, rfl⟩ := (for_weights_done s s').mp h
    have h1 := linearizeSourceLoop_length _ _ _ _ hb
    have h2 := linearizeLandmarkSourceLoop_length _ _ _ _ hbl
    rw [zeros_length] at h1 h2
    refine ⟨h1, h2, rfl, rfl, ?_⟩
    intro hN
    simp only at hN
    refine ⟨h1, ?_, h2, ?_⟩
    · simp only [hN]
      exact i2
    · simp only [hN]
      exact i4

theorem buffer_lengths_preserved_witness :
    bufferLengthsOk settledState.energyDerivedData ∧
    (∃ s', for_neighbors settledState = Run.done s' ∧
      bufferLengthsOk s'.energyDerivedData) ∧
    (∃ s', for_landmarks settledState = Run.done s' ∧
      bufferLengthsOk s'.energyDerivedData) ∧
    (∃ s', source_normals (fun m => m.vertices) settledState = Run.done s' ∧
      bufferLengthsOk s'.energyDerivedData) ∧
    (∃ s', for_weights settledState = Run.done s' ∧
      s'.energyDerivedData.source.vertices.length
        = settledState.energyDerivedData.source.vertices.length ∧
      bufferLengthsOk s'.energyDerivedData) :=
  have hinv : bufferLengthsOk settledState.energyDerivedData := by
    unfold bufferLengthsOk
    decide
  ⟨hinv,
    ⟨(for_neighbors settledState).state, rfl,
      (buffer_lengths_preserved (fun m => m.vertices) settledState _ hinv).1 rfl⟩,
    ⟨(for_landmarks settledState).state, rfl,
      (buffer_lengths_preserved (fun m => m.vertices) settledState _ hinv).2.1 rfl⟩,
    ⟨(source_normals (fun m => m.vertices) settledState).state, rfl,
      (buffer_lengths_preserved (fun m => m.vertices) settledState _ hinv).2.2.1 rfl⟩,
    ⟨(for_weights settledState).state, rfl, by decide,
      ((buffer_lengths_preserved (fun m => m.vertices) settledState _ hinv).2.2.2
        rfl).2.2.2.2 (by decide)⟩⟩

/-! ## The linearization contract -/

theorem linearizeSourceLoop_isLinearization (sourceVertices : List Vec)
    (sourceIndices : List Int) (buf : Vec)
    (h : linearizeSourceLoop sourceVertices sourceIndices
      (zeros (3 * sourceVertices.length)) = Run.done buf) :
    IsLinearization sourceVertices sourceIndices buf := by
  unfold linearizeSourceLoop at h
  have hS := scatter_loop id sourceVertices.length (fun i => sourceIndices[i]?)
    (fun i => (sourceIndices[i]?).bind (vectorAt sourceVertices))
    (linearizeSourceStep sourceVertices sourceIndices)
    (by
      intro i b b' hb
      obtain ⟨k, p, h1, h2, h3⟩ := (linearizeSourceStep_done _ _ i b b').mp hb
      exact ⟨k, p, h1, by simp [h1, h2], h3⟩)
    sourceIndices.length _ buf rfl h
  obtain ⟨h1, _, h3⟩ := hS
  simp only [id] at h1 h3
  refine ⟨h1, ?_⟩
  intro v hv j hj
  constructor
  · intro hmem
    obtain ⟨i, hi, hget, hlast⟩ := exists_last_occurrence _ _ hmem
    obtain ⟨p, x, hp, hx, hbx⟩ := (h3 v hv j hj).2 i hi hget hlast
    simp only [hget, Option.some_bind, vectorAt_natCast] at hp
    exact ⟨p, x, hp, hx, hbx⟩
  · intro hno
    exact (h3 v hv j hj).1 ((not_mem_iff_getElem? _ _).mp hno)

theorem linearizeLandmarkSourceLoop_isLinearization (sourceVertices : List Vec)
    (landmarks : List Landmark) (buf : Vec)
    (h : linearizeLandmarkSourceLoop sourceVertices landmarks
      (zeros (3 * sourceVertices.length)) = Run.done buf) :
    IsLinearization sourceVertices (landmarks.map Landmark.sourceIndex) buf := by
  unfold linearizeLandmarkSourceLoop at h
  have hS := scatter_loop id sourceVertices.length
    (fun i => (landmarks.map Landmark.sourceIndex)[i]?)
    (fun i => (landmarks[i]?).bind (fun lm => vectorAt sourceVertices lm.sourceIndex))
    (linearizeLandmarkSourceStep sourceVertices landmarks)
    (by
      intro i b b' hb
      obtain ⟨lm, p, h1, h2, h3⟩ := (linearizeLandmarkSourceStep_done _ _ i b b').mp hb
      exact ⟨lm.sourceIndex, p, by simp [h1], by simp [h1, h2], h3⟩)
    landmarks.length _ buf rfl h
  obtain ⟨h1, _, h3⟩ := hS
  simp only [id] at h1 h3
  refine ⟨h1, ?_⟩
  intro v hv j hj
  constructor
  · intro hmem
    obtain ⟨i, hi, hget, hlast⟩ := exists_last_occurrence _ _ hmem
    simp only [List.length_map] at hi hlast
    obtain ⟨p, x, hp, hx, hbx⟩ := (h3 v hv j hj).2 i hi hget hlast
    have hlm : ∃ lm, landmarks[i]? = some lm ∧ lm.sourceIndex = (v : Int) := by
      simpa [List.getElem?_map] using hget
    obtain ⟨lm, hlm1, hlm2⟩ := hlm
    simp only [hlm1, Option.some_bind, hlm2, vectorAt_natCast] at hp
    exact ⟨p, x, hp, hx, hbx⟩
  · intro hno
    have hno' := (not_mem_iff_getElem? _ _).mp hno
    simp only [List.length_map] at hno'
    exact (h3 v hv j hj).1 hno'

/-- Two linearizations of the same vertices at index lists with the same
members are the same buffer. -/
theorem isLinearization_unique (vertices : List Vec) (a a' : List Int) (b b' : Vec)
    (hset : ∀ k, k ∈ a ↔ k ∈ a')
    (h : IsLinearization vertices a b) (h' : IsLinearization vertices a' b') :
    b = b' := by
  obtain ⟨hl, he⟩ := h
  obtain ⟨hl', he'⟩ := h'
  apply List.ext_getElem?
  intro n
  by_cases hn : n < 3 * vertices.length
  · have hv : n / 3 < vertices.length := by omega
    have hj : n % 3 < 3 := by omega
    have hn3 : 3 * (n / 3) + n % 3 = n := by omega
    have e := he (n / 3) hv (n % 3) hj
    have e' := he' (n / 3) hv (n % 3) hj
    rw [hn3] at e e'
    by_cases hmem : ((n / 3 : Nat) : Int) ∈ a
    · obtain ⟨p, x, hp, hx, hb⟩ := e.1 hmem
      obtain ⟨p', x', hp', hx', hb'⟩ := e'.1 ((hset _).mp hmem)
      rw [hp] at hp'
      cases hp'
      rw [hx] at hx'
      cases hx'
      rw [hb, hb']
    · rw [e.2 hmem, e'.2 (fun hm => hmem ((hset _).mpr hm))]
  · rw [List.getElem?_eq_none (by omega), List.getElem?_eq_none (by omega)]

/-! ## Returning calls -/

theorem forLoop_returns {σ : Type} (Inv : σ → Prop) (body : Nat → σ → Run σ) :
    ∀ n, (∀ i, i < n → ∀ s, Inv s → ∃ s', body i s = Run.done s' ∧ Inv s') →
      ∀ s, Inv s → ∃ s', forLoop n body s = Run.done s' ∧ Inv s' := by
  intro n
  induction n with
  | zero =>
    intro _ s hs
    exact ⟨s, rfl, hs⟩
  | succ n ih =>
    intro hstep s hs
    obtain ⟨s1, h1, hs1⟩ := ih (fun i hi => hstep i (by omega)) s hs
    obtain ⟨s2, h2, hs2⟩ := hstep n (by omega) s1 hs1
    exact ⟨s2, (forLoop_succ_done n body s s2).mpr ⟨s1, h1, h2⟩, hs2⟩

theorem vectorAt_some {α : Type} (xs : List α) (i : Int) (x : α)
    (h : vectorAt xs i = some x) : 0 ≤ i ∧ i < xs.length ∧ x ∈ xs := by
  unfold vectorAt at h
  split_ifs at h with h0
  have hlt : i.toNat < xs.length := by
    by_contra hge
    rw [List.getElem?_eq_none (by omega)] at h
    simp at h
  refine ⟨h0, by omega, ?_⟩
  rw [List.mem_iff_getElem?]
  exact ⟨_, h⟩

theorem vectorAt_inRange {α : Type} (xs : List α) (i : Int)
    (h0 : 0 ≤ i) (h1 : i < xs.length) : ∃ x, vectorAt xs i = some x ∧ x ∈ xs := by
  have hlt : i.toNat < xs.length := by omega
  refine ⟨xs[i.toNat], ?_, List.getElem_mem _⟩
  unfold vectorAt
  rw [if_pos h0, List.getElem?_eq_getElem hlt]

theorem storePoint_returns (index : Int) (p buf : Vec) (hp : 3 ≤ p.length)
    (h0 : 0 ≤ index) (hk : 3 * index + 2 < buf.length) :
    ∃ buf', storePoint index p buf = Run.done buf' ∧ buf'.length = buf.length := by
  have e0 : p[0]? = some p[0] := List.getElem?_eq_getElem (by omega)
  have e1 : p[1]? = some p[1] := List.getElem?_eq_getElem (by omega)
  have e2 : p[2]? = some p[2] := List.getElem?_eq_getElem (by omega)
  refine ⟨_, (storePoint_done index p buf _).mpr
    ⟨index.toNat, p[0], p[1], p[2], by omega, e0, e1, e2, by omega, rfl⟩, by simp⟩

theorem storePointPair_returns (index : Int) (sp tp : Vec) (bufs : Vec × Vec)
    (b1 b2 : Vec) (h1 : storePoint index sp bufs.1 = Run.done b1)
    (h2 : storePoint index tp bufs.2 = Run.done b2) :
    storePointPair index sp tp bufs = Run.done (b1, b2) := by
  unfold storePoint at h1 h2
  unfold storePointPair
  obtain ⟨c1, c2, hc0, hc1, hc2⟩ := (forLoop_three _ _ _).mp h1
  obtain ⟨d1, d2, hd0, hd1, hd2⟩ := (forLoop_three _ _ _).mp h2
  rw [forLoop_three]
  exact ⟨(c1, d1), (c2, d2),
    (storeEntryPair_done index sp tp 0 bufs (c1, d1)).mpr ⟨hc0, hd0⟩,
    (storeEntryPair_done index sp tp 1 (c1, d1) (c2, d2)).mpr ⟨hc1, hd1⟩,
    (storeEntryPair_done index sp tp 2 (c2, d2) (b1, b2)).mpr ⟨hc2, hd2⟩⟩

theorem linearizeSourceLoop_returns (sourceVertices : List Vec) (sourceIndices : List Int)
    (buf : Vec) (hrange : ∀ k, k ∈ sourceIndices → 0 ≤ k ∧ k < sourceVertices.length)
    (h3 : ∀ p, p ∈ sourceVertices → p.length = 3)
    (hlen : buf.length = 3 * sourceVertices.length) :
    ∃ buf', linearizeSourceLoop sourceVertices sourceIndices buf = Run.done buf' := by
  unfold linearizeSourceLoop
  obtain ⟨buf', h, _⟩ := forLoop_returns (fun b => b.length = 3 * sourceVertices.length)
    (linearizeSourceStep sourceVertices sourceIndices) sourceIndices.length
    (by
      intro i hi b hb
      have hget : sourceIndices[i]? = some sourceIndices[i] := List.getElem?_eq_getElem hi
      obtain ⟨hk0, hk1⟩ := hrange _ (List.getElem_mem hi)
      obtain ⟨p, hp, hpmem⟩ := vectorAt_inRange sourceVertices _ hk0 hk1
      obtain ⟨b', hb', hl'⟩ := storePoint_returns sourceIndices[i] p b
        (by rw [h3 p hpmem]) hk0 (by omega)
      exact ⟨b', (linearizeSourceStep_done _ _ i b b').mpr ⟨_, p, hget, hp, hb'⟩,
        by omega⟩)
    buf hlen
  exact ⟨buf', h⟩

theorem linearizeLandmarkSourceLoop_returns (sourceVertices : List Vec)
    (landmarks : List Landmark) (buf : Vec)
    (hrange : ∀ lm, lm ∈ landmarks →
      0 ≤ lm.sourceIndex ∧ lm.sourceIndex < sourceVertices.length)
    (h3 : ∀ p, p ∈ sourceVertices → p.length = 3)
    (hlen : buf.length = 3 * sourceVertices.length) :
    ∃ buf', linearizeLandmarkSourceLoop sourceVertices landmarks buf = Run.done buf' := by
  unfold linearizeLandmarkSourceLoop
  obtain ⟨buf', h, _⟩ := forLoop_returns (fun b => b.length = 3 * sourceVertices.length)
    (linearizeLandmarkSourceStep sourceVertices landmarks) landmarks.length
    (by
      intro i hi b hb
      have hget : landmarks[i]? = some landmarks[i] := List.getElem?_eq_getElem hi
      obtain ⟨hk0, hk1⟩ := hrange _ (List.getElem_mem hi)
      obtain ⟨p, hp, hpmem⟩ := vectorAt_inRange sourceVertices _ hk0 hk1
      obtain ⟨b', hb', hl'⟩ := storePoint_returns landmarks[i].sourceIndex p b
        (by rw [h3 p hpmem]) hk0 (by omega)
      exact ⟨b', (linearizeLandmarkSourceStep_done _ _ i b b').mpr ⟨_, p, hget, hp, hb'⟩,
        by omega⟩)
    buf hlen
  exact ⟨buf', h⟩

theorem linearizeLandmarkTargetLoop_returns (N : Nat) (landmarks : List Landmark)
    (buf : Vec)
    (hrange : ∀ lm, lm ∈ landmarks → 0 ≤ lm.sourceIndex ∧ lm.sourceIndex < N)
    (h3 : ∀ lm, lm ∈ landmarks → lm.targetPosition.length = 3)
    (hlen : buf.length = 3 * N) :
    ∃ buf', linearizeLandmarkTargetLoop landmarks buf = Run.done buf' := by
  unfold linearizeLandmarkTargetLoop
  obtain ⟨buf', h, _⟩ := forLoop_returns (fun b => b.length = 3 * N)
    (linearizeLandmarkTargetStep landmarks) landmarks.length
    (by
      intro i hi b hb
      have hget : landmarks[i]? = some landmarks[i] := List.getElem?_eq_getElem hi
      obtain ⟨hk0, hk1⟩ := hrange _ (List.getElem_mem hi)
      obtain ⟨b', hb', hl'⟩ := storePoint_returns landmarks[i].sourceIndex
        landmarks[i].targetPosition b
        (by rw [h3 _ (List.getElem_mem hi)]) hk0 (by omega)
      exact ⟨b', (linearizeLandmarkTargetStep_done _ i b b').mpr ⟨_, hget, hb'⟩,
        by omega⟩)
    buf hlen
  exact ⟨buf', h⟩

theorem markLandmarks_returns :
    ∀ (landmarks : List Landmark) (flags : List Bool),
      (∀ lm, lm ∈ landmarks → 0 ≤ lm.sourceIndex ∧ lm.sourceIndex < flags.length) →
      ∃ flags', forEach landmarks markLandmark flags = Run.done flags' := by
  intro landmarks
  induction landmarks with
  | nil =>
    intro flags _
    exact ⟨flags, rfl⟩
  | cons lm rest ih =>
    intro flags hrange
    obtain ⟨h0, h1⟩ := hrange lm (List.mem_cons_self _ _)
    have hm : markLandmark lm flags = Run.done (flags.set lm.sourceIndex.toNat true) :=
      (markLandmark_done lm flags _).mpr ⟨h0, by omega, rfl⟩
    obtain ⟨flags', h'⟩ := ih (flags.set lm.sourceIndex.toNat true)
      (fun lm' hlm' => by
        have := hrange lm' (List.mem_cons_of_mem _ hlm')
        simpa using this)
    exact ⟨flags', (forEach_cons_done lm rest markLandmark flags flags').mpr ⟨_, hm, h'⟩⟩

theorem markLandmarks_inRange :
    ∀ (landmarks : List Landmark) (flags flags' : List Bool),
      forEach landmarks markLandmark flags = Run.done flags' →
      ∀ lm, lm ∈ landmarks → 0 ≤ lm.sourceIndex ∧ lm.sourceIndex < flags.length := by
  intro landmarks
  induction landmarks with
  | nil =>
    intro flags flags' _ lm hlm
    simp at hlm
  | cons x rest ih =>
    intro flags flags' h lm hlm
    obtain ⟨m, hm, hrest⟩ := (forEach_cons_done x rest markLandmark flags flags').mp h
    obtain ⟨h0, hlt, rfl⟩ := (markLandmark_done x flags m).mp hm
    rcases List.mem_cons.mp hlm with rfl | hmem
    · exact ⟨h0, by omega⟩
    · have := ih _ flags' hrest lm hmem
      simpa using this

/-- C19: order independence of the source buffer. For two states with the same
source vertices whose source-index lists have the same members (in any order,
with any multiplicity), linearize_source leaves the same linearizedSource
whenever it returns on both; and it does return on both when the indices are
in range and the vertices have three components. -/
theorem linearize_source_order_independent (s t : State)
    (hmesh : s.energyDerivedData.source.vertices = t.energyDerivedData.source.vertices)
    (hset : ∀ k, k ∈ s.energyDerivedData.sourceIndices ↔
      k ∈ t.energyDerivedData.sourceIndices) :
    (∀ s1 t1, linearize_source s = Run.done s1 → linearize_source t = Run.done t1 →
      s1.energyDerivedData.linearizedSource = t1.energyDerivedData.linearizedSource) ∧
    ((∀ k, k ∈ s.energyDerivedData.sourceIndices →
        0 ≤ k ∧ k < s.energyDerivedData.source.vertices.length) →
      (∀ p, p ∈ s.energyDerivedData.source.vertices → p.length = 3) →
      ∃ s1 t1, linearize_source s = Run.done s1 ∧ linearize_source t = Run.done t1 ∧
        s1.energyDerivedData.linearizedSource = t1.energyDerivedData.linearizedSource) := by
  have hagree : ∀ s1 t1, linearize_source s = Run.done s1 →
      linearize_source t = Run.done t1 →
      s1.energyDerivedData.linearizedSource = t1.energyDerivedData.linearizedSource := by
    intro s1 t1 h1 h2
    obtain ⟨b, hb, rfl⟩ := (linearize_source_done s s1).mp h1
    obtain ⟨b', hb', rfl⟩ := (linearize_source_done t t1).mp h2
    have e := linearizeSourceLoop_isLinearization _ _ _ hb
    have e' := linearizeSourceLoop_isLinearization _ _ _ hb'
    rw [← hmesh] at e'
    exact isLinearization_unique _ _ _ _ _ hset e e'
  refine ⟨hagree, ?_⟩
  intro hrange h3
  obtain ⟨b, hb⟩ := linearizeSourceLoop_returns _ _
    (zeros (3 * s.energyDerivedData.source.vertices.length)) hrange h3 (zeros_length _)
  obtain ⟨b', hb'⟩ := linearizeSourceLoop_returns t.energyDerivedData.source.vertices
    t.energyDerivedData.sourceIndices
    (zeros (3 * t.energyDerivedData.source.vertices.length))
    (fun k hk => by
      rw [← hmesh]
      exact hrange k ((hset k).mpr hk))
    (fun p hp => h3 p (by rw [hmesh]; exact hp)) (zeros_length _)
  have h1 := (linearize_source_done s _).mpr ⟨b, hb, rfl⟩
  have h2 := (linearize_source_done t _).mpr ⟨b', hb', rfl⟩
  exact ⟨_, _, h1, h2, hagree _ _ h1 h2⟩

theorem linearize_source_order_independent_witness :
    scenarioState.energyDerivedData.sourceIndices = [1, 3] ∧
    reorderedState.energyDerivedData.sourceIndices = [3, 1, 3, 3] ∧
    ∃ s1 t1, linearize_source scenarioState = Run.done s1 ∧
      linearize_source reorderedState = Run.done t1 ∧
      s1.energyDerivedData.linearizedSource = t1.energyDerivedData.linearizedSource :=
  ⟨rfl, rfl,
    (linearize_source_order_independent scenarioState reorderedState rfl
      (by
        intro k
        simp only [scenarioState, reorderedState, List.mem_cons, List.mem_singleton,
          List.not_mem_nil, or_false]
        omega)).2 (by decide) (by decide)⟩

/-- C15: parameter-change refresh. Whenever for_weights returns, the derived
source mesh is the mesh reconstructed from the speaker and phoneme weights, the
index lists and landmarks are unchanged, and linearizedSource and
linearizedLandmarkSource are the zero-filled linearizations (three entries per
new vertex) of the new vertices at the source indices and at the landmark
source indices. It does return when these indices are in range for the
reconstructed mesh, whose vertices have three components. -/
theorem for_weights_refresh (s : State) :
    (∀ s', for_weights s = Run.done s' →
      s'.energyDerivedData.source
        = s.energyData.model s.energyData.speakerWeights s.energyData.phonemeWeights ∧
      s'.energyDerivedData.sourceIndices = s.energyDerivedData.sourceIndices ∧
      s'.energyData.landmarks = s.energyData.landmarks ∧
      IsLinearization s'.energyDerivedData.source.vertices
        s.energyDerivedData.sourceIndices s'.energyDerivedData.linearizedSource ∧
      IsLinearization s'.energyDerivedData.source.vertices
        (s.energyData.landmarks.map Landmark.sourceIndex)
        s'.energyDerivedData.linearizedLandmarkSource) ∧
    ((∀ k, k ∈ s.energyDerivedData.sourceIndices →
        0 ≤ k ∧ k < (s.energyData.model s.energyData.speakerWeights
          s.energyData.phonemeWeights).vertices.length) →
      (∀ lm, lm ∈ s.energyData.landmarks →
        0 ≤ lm.sourceIndex ∧ lm.sourceIndex < (s.energyData.model
          s.energyData.speakerWeights s.energyData.phonemeWeights).vertices.length) →
      (∀ p, p ∈ (s.energyData.model s.energyData.speakerWeights
        s.energyData.phonemeWeights).vertices → p.length = 3) →
      ∃ s', for_weights s = Run.done s') := by
  constructor
  · intro s' h
    obtain ⟨b, bl, hb, hbl, rfl⟩ := (for_weights_done s s').mp h
    exact ⟨rfl, rfl, rfl, linearizeSourceLoop_isLinearization _ _ _ hb,
      linearizeLandmarkSourceLoop_isLinearization _ _ _ hbl⟩
  · intro hsrc hlm h3
    obtain ⟨b, hb⟩ := linearizeSourceLoop_returns _ _
      (zeros (3 * (s.energyData.model s.energyData.speakerWeights
        s.energyData.phonemeWeights).vertices.length)) hsrc h3 (zeros_length _)
    obtain ⟨bl, hbl⟩ := linearizeLandmarkSourceLoop_returns _ _
      (zeros (3 * (s.energyData.model s.energyData.speakerWeights
        s.energyData.phonemeWeights).vertices.length)) hlm h3 (zeros_length _)
    exact ⟨_, (for_weights_done s _).mpr ⟨b, bl, hb, hbl, rfl⟩⟩

theorem for_weights_refresh_witness :
    staleState.energyDerivedData.source.vertices.length = 4 ∧
    (for_weights staleState).state.energyDerivedData.source.vertices.length = 8 ∧
    (for_weights staleState).state.energyDerivedData.linearizedSource
      = [0, 0, 0, 13, 14, 15, 0, 0, 0, 19, 20, 21,
         0, 0, 0, 0, 0, 0, 0, 0, 0, 0, 0, 0] ∧
    (for_weights staleState).state.energyDerivedData.linearizedLandmarkSource
      = [0, 0, 0, 0, 0, 0, 16, 17, 18, 0, 0, 0,
         0, 0, 0, 0, 0, 0, 0, 0, 0, 31, 32, 33] ∧
    (∃ s', for_weights staleState = Run.done s') ∧
    ∃ s', for_weights staleState = Run.done s' ∧
      s'.energyDerivedData.source
        = staleState.energyData.model staleState.energyData.speakerWeights
          staleState.energyData.phonemeWeights ∧
      s'.energyDerivedData.sourceIndices = staleState.energyDerivedData.sourceIndices ∧
      s'.energyData.landmarks = staleState.energyData.landmarks ∧
      IsLinearization s'.energyDerivedData.source.vertices
        staleState.energyDerivedData.sourceIndices
        s'.energyDerivedData.linearizedSource ∧
      IsLinearization s'.energyDerivedData.source.vertices
        (staleState.energyData.landmarks.map Landmark.sourceIndex)
        s'.energyDerivedData.linearizedLandmarkSource :=
  ⟨by decide, by decide, by decide, by decide,
    (for_weights_refresh staleState).2 (by decide) (by decide) (by decide),
    (for_weights staleState).state, rfl, (for_weights_refresh staleState).1 _ rfl⟩

theorem projectOntoNormal_returns (sp tp n : Vec) (h1 : sp.length = 3)
    (h2 : tp.length = 3) (h3 : n.length = 3) :
    ∃ P, projectOntoNormal sp tp n = some P ∧ P.length = 3 := by
  unfold projectOntoNormal vecSub
  rw [if_pos (by omega)]
  simp only
  unfold vecDot
  rw [if_pos (by simp [h1, h2, h3])]
  simp only
  unfold vecAdd vecScale
  rw [if_pos (by simp [h1, h3])]
  exact ⟨_, rfl, by simp [h1, h3]⟩

theorem correspondenceTarget_inRange (useProjection : Bool) (target : Mesh)
    (sp tp : Vec) (t : Int)
    (h : correspondenceTarget useProjection target sp t = some tp) :
    0 ≤ t ∧ t < target.vertices.length := by
  unfold correspondenceTarget Mesh.get_vertices at h
  cases hv : vectorAt target.vertices t with
  | none => simp [hv] at h
  | some x =>
    obtain ⟨h0, h1, _⟩ := vectorAt_some _ _ _ hv
    exact ⟨h0, h1⟩

theorem correspondenceTarget_returns (useProjection : Bool) (target : Mesh)
    (sp : Vec) (t : Int) (hsp : sp.length = 3)
    (h0 : 0 ≤ t) (h1 : t < target.vertices.length)
    (h3 : ∀ p, p ∈ target.vertices → p.length = 3)
    (hn : useProjection = true → ∀ normals, target.vertexNormals = some normals →
      normals.length = target.vertices.length ∧ ∀ n, n ∈ normals → n.length = 3) :
    ∃ tp, correspondenceTarget useProjection target sp t = some tp ∧ tp.length = 3 := by
  obtain ⟨x, hx, hxmem⟩ := vectorAt_inRange target.vertices t h0 h1
  unfold correspondenceTarget Mesh.get_vertices Mesh.has_normals
  simp only [hx]
  cases hup : useProjection with
  | false => exact ⟨x, by simp, h3 x hxmem⟩
  | true =>
    cases hnorm : target.vertexNormals with
    | none => exact ⟨x, by simp, h3 x hxmem⟩
    | some normals =>
      obtain ⟨hlen, hn3⟩ := hn hup normals hnorm
      obtain ⟨n, hnget, hnmem⟩ := vectorAt_inRange normals t h0 (by omega)
      obtain ⟨P, hP, hPlen⟩ := projectOntoNormal_returns sp x n hsp (h3 x hxmem)
        (hn3 n hnmem)
      exact ⟨P, by simp [hnget, hP], hPlen⟩

theorem linearizeSourceAndTargetLoop_returns (useProjection : Bool) (target : Mesh)
    (sourceVertices : List Vec) (sourceIndices targetIndices : List Int)
    (bufs : Vec × Vec)
    (hlen : sourceIndices.length = targetIndices.length)
    (hsrc : ∀ k, k ∈ sourceIndices → 0 ≤ k ∧ k < sourceVertices.length)
    (htgt : ∀ k, k ∈ targetIndices → 0 ≤ k ∧ k < target.vertices.length)
    (hs3 : ∀ p, p ∈ sourceVertices → p.length = 3)
    (ht3 : ∀ p, p ∈ target.vertices → p.length = 3)
    (hn : useProjection = true → ∀ normals, target.vertexNormals = some normals →
      normals.length = target.vertices.length ∧ ∀ n, n ∈ normals → n.length = 3)
    (hb1 : bufs.1.length = 3 * sourceVertices.length)
    (hb2 : bufs.2.length = 3 * sourceVertices.length) :
    ∃ bufs', linearizeSourceAndTargetLoop useProjection target sourceVertices
      sourceIndices targetIndices bufs = Run.done bufs' := by
  unfold linearizeSourceAndTargetLoop
  obtain ⟨bufs', h, _⟩ := forLoop_returns
    (fun b : Vec × Vec => b.1.length = 3 * sourceVertices.length ∧
      b.2.length = 3 * sourceVertices.length)
    (linearizeSourceAndTargetStep useProjection target sourceVertices sourceIndices
      targetIndices) sourceIndices.length
    (by
      intro i hi b hb
      have hi' : i < targetIndices.length := by omega
      have hget : sourceIndices[i]? = some sourceIndices[i] := List.getElem?_eq_getElem hi
      have hget' : targetIndices[i]? = some targetIndices[i] :=
        List.getElem?_eq_getElem hi'
      obtain ⟨hk0, hk1⟩ := hsrc _ (List.getElem_mem hi)
      obtain ⟨ht0, ht1⟩ := htgt _ (List.getElem_mem hi')
      obtain ⟨sp, hsp, hspmem⟩ := vectorAt_inRange sourceVertices _ hk0 hk1
      obtain ⟨tp, htp, htplen⟩ := correspondenceTarget_returns useProjection target sp
        targetIndices[i] (hs3 sp hspmem) ht0 ht1 ht3 hn
      obtain ⟨b1, hb1', hl1⟩ := storePoint_returns sourceIndices[i] sp b.1
        (by rw [hs3 sp hspmem]) hk0 (by omega)
      obtain ⟨b2, hb2', hl2⟩ := storePoint_returns sourceIndices[i] tp b.2
        (by rw [htplen]) hk0 (by omega)
      refine ⟨(b1, b2), (linearizeSourceAndTargetStep_done _ _ _ _ _ i b (b1, b2)).mpr
        ⟨_, _, sp, tp, hget, hget', hsp, htp,
          storePointPair_returns _ sp tp b b1 b2 hb1' hb2'⟩, ?_, ?_⟩
      · simp only
        omega
      · simp only
        omega)
    bufs ⟨hb1, hb2⟩
  exact ⟨bufs', h⟩

/-- Every correspondence of a returning loop of `linearize_source_and_target`
has both indices in range. -/
theorem linearizeSourceAndTargetLoop_inRange (useProjection : Bool) (target : Mesh)
    (sourceVertices : List Vec) (sourceIndices targetIndices : List Int)
    (bufs bufs' : Vec × Vec)
    (h : linearizeSourceAndTargetLoop useProjection target sourceVertices sourceIndices
      targetIndices bufs = Run.done bufs') :
    ∀ i, i < sourceIndices.length →
      ∃ k t, sourceIndices[i]? = some k ∧ targetIndices[i]? = some t ∧
        (0 ≤ k ∧ k < sourceVertices.length) ∧ (0 ≤ t ∧ t < target.vertices.length) := by
  intro i hi
  unfold linearizeSourceAndTargetLoop at h
  obtain ⟨a, b, hab⟩ := forLoop_done_each _ _ _ _ h i hi
  obtain ⟨k, t, sp, tp, h1, h2, h3, h4, _⟩ :=
    (linearizeSourceAndTargetStep_done _ _ _ _ _ _ a b).mp hab
  obtain ⟨hk0, hk1, _⟩ := vectorAt_some _ _ _ h3
  exact ⟨k, t, h1, h2, ⟨hk0, hk1⟩, correspondenceTarget_inRange _ _ _ _ _ h4⟩

/-! ## Index validity -/

/-- C13: out-of-range indices are fatal, and only they are. On a state whose
points have three components: with index lists of equal length, the "dataTerm"
weight present and, when the projection is on, one three-component normal per
target vertex, for_neighbors throws if and only if some source index lies
outside [0, sourceVertexCount) or some target index lies outside
[0, targetVertexCount); with the "landmarkTerm" weight present, for_landmarks
throws if and only if some landmark source index lies outside
[0, sourceVertexCount). -/
theorem out_of_range_iff_fatal (s : State)
    (hs3 : ∀ p, p ∈ s.energyDerivedData.source.vertices → p.length = 3) :
    (s.energyDerivedData.sourceIndices.length = s.energyDerivedData.targetIndices.length →
      (∀ p, p ∈ s.energyData.target.vertices → p.length = 3) →
      (∃ w, s.energySettings.weights "dataTerm" = some w) →
      (s.energySettings.useProjection = true →
        ∀ normals, s.energyData.target.vertexNormals = some normals →
          normals.length = s.energyData.target.vertices.length ∧
          ∀ n, n ∈ normals → n.length = 3) →
      ((∃ t, for_neighbors s = Run.thrown t) ↔
        ((∃ k, k ∈ s.energyDerivedData.sourceIndices ∧
            (k < 0 ∨ (s.energyDerivedData.source.vertices.length : Int) ≤ k)) ∨
          (∃ k, k ∈ s.energyDerivedData.targetIndices ∧
            (k < 0 ∨ (s.energyData.target.vertices.length : Int) ≤ k))))) ∧
    ((∀ lm, lm ∈ s.energyData.landmarks → lm.targetPosition.length = 3) →
      (∃ w, s.energySettings.weights "landmarkTerm" = some w) →
      ((∃ t, for_landmarks s = Run.thrown t) ↔
        ∃ lm, lm ∈ s.energyData.landmarks ∧
          (lm.sourceIndex < 0 ∨
            (s.energyDerivedData.source.vertices.length : Int) ≤ lm.sourceIndex))) := by
  constructor
  · intro hlen ht3 hkey hn
    obtain ⟨w, hw⟩ := hkey
    rw [← Run.not_done_iff_thrown]
    constructor
    · intro hnot
      by_contra hall
      push_neg at hall
      obtain ⟨hsrc, htgt⟩ := hall
      obtain ⟨bufs, hb⟩ := linearizeSourceAndTargetLoop_returns
        s.energySettings.useProjection s.energyData.target
        s.energyDerivedData.source.vertices s.energyDerivedData.sourceIndices
        s.energyDerivedData.targetIndices
        (zeros (3 * s.energyDerivedData.source.vertices.length),
          zeros (3 * s.energyDerivedData.source.vertices.length))
        hlen hsrc htgt hs3 ht3 hn (zeros_length _) (zeros_length _)
      exact hnot ⟨_, (for_neighbors_done s _).mpr ⟨bufs, w, hb, hw, rfl⟩⟩
    · rintro hout ⟨s', hs'⟩
      obtain ⟨bufs, w', hb, _, _⟩ := (for_neighbors_done s s').mp hs'
      have hin := linearizeSourceAndTargetLoop_inRange _ _ _ _ _ _ _ hb
      rcases hout with ⟨k, hk, hbad⟩ | ⟨k, hk, hbad⟩
      · obtain ⟨i, hi, hget⟩ := List.getElem_of_mem hk
        obtain ⟨k', t', h1, _, hr, _⟩ := hin i hi
        rw [List.getElem?_eq_getElem hi, hget] at h1
        cases h1
        omega
      · obtain ⟨i, hi, hget⟩ := List.getElem_of_mem hk
        obtain ⟨k', t', _, h2, _, hr⟩ := hin i (by omega)
        rw [List.getElem?_eq_getElem hi, hget] at h2
        cases h2
        omega
  · intro hp3 hkey
    obtain ⟨w, hw⟩ := hkey
    rw [← Run.not_done_iff_thrown]
    constructor
    · intro hnot
      by_contra hall
      push_neg at hall
      obtain ⟨flags, hf⟩ := markLandmarks_returns s.energyData.landmarks
        (List.replicate s.energyDerivedData.source.vertices.length false)
        (fun lm hlm => by simpa using hall lm hlm)
      obtain ⟨bs, hbs⟩ := linearizeLandmarkSourceLoop_returns
        s.energyDerivedData.source.vertices s.energyData.landmarks
        (zeros (3 * s.energyDerivedData.source.vertices.length)) hall hs3 (zeros_length _)
      obtain ⟨bt, hbt⟩ := linearizeLandmarkTargetLoop_returns
        s.energyDerivedData.source.vertices.length s.energyData.landmarks
        (zeros (3 * s.energyDerivedData.source.vertices.length)) hall hp3 (zeros_length _)
      exact hnot ⟨_, (for_landmarks_done s _).mpr ⟨flags, bs, bt, w, hf, hbs, hbt, hw, rfl⟩⟩
    · rintro ⟨lm, hlm, hbad⟩ ⟨s', hs'⟩
      obtain ⟨flags, bs, bt, w', hf, _, _, _, _⟩ := (for_landmarks_done s s').mp hs'
      have hr := markLandmarks_inRange _ _ _ hf lm hlm
      simp only [List.length_replicate] at hr
      omega

theorem out_of_range_iff_fatal_witness :
    (∃ t, for_neighbors outOfRangeState = Run.thrown t) ∧
    (¬ ∃ t, for_neighbors fullState = Run.thrown t) ∧
    (∃ t, for_landmarks outOfRangeLandmarkState = Run.thrown t) ∧
    (¬ ∃ t, for_landmarks fullState = Run.thrown t) :=
  ⟨((out_of_range_iff_fatal outOfRangeState (by decide)).1 (by decide) (by decide)
      ⟨3, rfl⟩ (by decide)).mpr (Or.inl ⟨9, by decide, by decide⟩),
    fun h => absurd
      (((out_of_range_iff_fatal fullState (by decide)).1 (by decide) (by decide)
        ⟨3, rfl⟩ (by decide)).mp h) (by decide),
    ((out_of_range_iff_fatal outOfRangeLandmarkState (by decide)).2 (by decide)
      ⟨6, rfl⟩).mpr ⟨{ sourceIndex := 8, targetPosition := [1, 1, 1] },
        by simp [outOfRangeLandmarkState, landmarkState], by decide⟩,
    fun h => absurd
      (((out_of_range_iff_fatal fullState (by decide)).2 (by decide) ⟨6, rfl⟩).mp h)
      (by decide)⟩

end FitModel
